import Mathlib

/-!
Verification of the SmartMatching document-processing pipeline.

This file gives a shallow embedding, in Lean, of the pipeline services of the
SmartMatching repository and proves properties of the embedded code:

* `ExtractTextService.extract_text`
  (src/backend/services/confirmation_files/extract_text_service.py)
* `ParseTextService.parse_text`
  (src/backend/services/confirmation_files/parse_text_service.py)
* `ExtractMatchingUnitsService.extract_matching_units`
  (src/backend/services/matching_units/extract_matching_units_service.py)

Modelling conventions:

* JSONB payloads (`parsed_data`, `additional_data`, `transaction_details`)
  are values of the inductive type `J`.
* The database is a `DBState`: lists of rows for the four tables the services
  touch.  Primary keys are modelled as `Nat`.
* A service call is a function `DBState → Except Err α × DBState`.  Each
  service body runs inside one transaction (`async with get_db() as db` plus
  an explicit `try`/`except` in the source): the staged writes of the body are
  threaded through an auxiliary `...Steps` function, and the top-level wrapper
  commits the staged state on success and returns the original state on any
  exception, mirroring the `await db.commit()` / `await db.rollback()` pair in
  the source.
* Python exceptions are values of `Err`.  `Except.error` corresponds to an
  exception propagating out of the service body.
* Python truthiness (`if not x:`) is modelled by `truthy`.
* Concurrency: the services serialize competing callers through a
  `SELECT ... FOR UPDATE` row lock on the document, so a race of two callers
  is modelled as the two calls running in sequence (the loser re-evaluates
  the status predicate after the winner commits).
-/

set_option autoImplicit false

namespace SmartMatching

/-- JSON-like values, as stored in the JSONB columns and produced by the model
parser.  Numbers are modelled as integers: every numeric literal the claims
touch is integral, and no service performs arithmetic on payload numbers. -/
inductive J where
  | null
  | b (v : Bool)
  | i (n : Int)
  | s (v : String)
  | arr (xs : List J)
  | obj (fs : List (String × J))

mutual

def J.decEq : (a b : J) → Decidable (a = b)
  | .null, .null => isTrue rfl
  | .b x, .b y =>
    match instDecidableEqBool x y with
    | isTrue h => isTrue (h ▸ rfl)
    | isFalse h => isFalse (fun hh => h (J.b.inj hh))
  | .i x, .i y =>
    match Int.instDecidableEq x y with
    | isTrue h => isTrue (h ▸ rfl)
    | isFalse h => isFalse (fun hh => h (J.i.inj hh))
  | .s x, .s y =>
    match String.decEq x y with
    | isTrue h => isTrue (h ▸ rfl)
    | isFalse h => isFalse (fun hh => h (J.s.inj hh))
  | .arr xs, .arr ys =>
    match J.decEqList xs ys with
    | isTrue h => isTrue (h ▸ rfl)
    | isFalse h => isFalse (fun hh => h (J.arr.inj hh))
  | .obj xs, .obj ys =>
    match J.decEqFields xs ys with
    | isTrue h => isTrue (h ▸ rfl)
    | isFalse h => isFalse (fun hh => h (J.obj.inj hh))
  | .null, .b _ => isFalse nofun
  | .null, .i _ => isFalse nofun
  | .null, .s _ => isFalse nofun
  | .null, .arr _ => isFalse nofun
  | .null, .obj _ => isFalse nofun
  | .b _, .null => isFalse nofun
  | .b _, .i _ => isFalse nofun
  | .b _, .s _ => isFalse nofun
  | .b _, .arr _ => isFalse nofun
  | .b _, .obj _ => isFalse nofun
  | .i _, .null => isFalse nofun
  | .i _, .b _ => isFalse nofun
  | .i _, .s _ => isFalse nofun
  | .i _, .arr _ => isFalse nofun
  | .i _, .obj _ => isFalse nofun
  | .s _, .null => isFalse nofun
  | .s _, .b _ => isFalse nofun
  | .s _, .i _ => isFalse nofun
  | .s _, .arr _ => isFalse nofun
  | .s _, .obj _ => isFalse nofun
  | .arr _, .null => isFalse nofun
  | .arr _, .b _ => isFalse nofun
  | .arr _, .i _ => isFalse nofun
  | .arr _, .s _ => isFalse nofun
  | .arr _, .obj _ => isFalse nofun
  | .obj _, .null => isFalse nofun
  | .obj _, .b _ => isFalse nofun
  | .obj _, .i _ => isFalse nofun
  | .obj _, .s _ => isFalse nofun
  | .obj _, .arr _ => isFalse nofun
termination_by structural a => a

def J.decEqList : (xs ys : List J) → Decidable (xs = ys)
  | [], [] => isTrue rfl
  | [], _ :: _ => isFalse nofun
  | _ :: _, [] => isFalse nofun
  | x :: xs, y :: ys =>
    match J.decEq x y with
    | isTrue h1 =>
      match J.decEqList xs ys with
      | isTrue h2 => isTrue (h1 ▸ h2 ▸ rfl)
      | isFalse h2 => isFalse (fun hh => h2 (List.cons.inj hh).2)
    | isFalse h1 => isFalse (fun hh => h1 (List.cons.inj hh).1)
termination_by structural xs => xs

def J.decEqFields : (xs ys : List (String × J)) → Decidable (xs = ys)
  | [], [] => isTrue rfl
  | [], _ :: _ => isFalse nofun
  | _ :: _, [] => isFalse nofun
  | (k1, v1) :: xs, (k2, v2) :: ys =>
    match String.decEq k1 k2 with
    | isTrue hk =>
      match J.decEq v1 v2 with
      | isTrue hv =>
        match J.decEqFields xs ys with
        | isTrue ht => isTrue (hk ▸ hv ▸ ht ▸ rfl)
        | isFalse ht => isFalse (fun hh => ht (List.cons.inj hh).2)
      | isFalse hv => isFalse (fun hh => hv (congrArg Prod.snd (List.cons.inj hh).1))
    | isFalse hk => isFalse (fun hh => hk (congrArg Prod.fst (List.cons.inj hh).1))
termination_by structural xs => xs

end

instance : DecidableEq J := J.decEq

/-- Python truthiness of a JSON value: `None`, `False`, `0`, `""`, `[]` and
an empty dict are falsy, everything else is truthy. -/
def truthy : J → Bool
  | .null => false
  | .b v => v
  | .i n => decide (n ≠ 0)
  | .s v => decide (v ≠ "")
  | .arr xs => decide (xs ≠ [])
  | .obj fs => decide (fs ≠ [])

/-- First binding of a key in an object's field list (Python dicts cannot hold
duplicate keys, so first-binding lookup matches dict lookup). -/
def lookupField (fs : List (String × J)) (k : String) : Option J :=
  (fs.find? (fun p => p.1 == k)).map (fun p => p.2)

/-- Modelled from the spec: the `ProcessingStatus` enum.  The enum class is
imported by every service from `database.models` but the checked-in
`models.py` is stale and does not declare it; the member names are those the
services reference (`Not_Processed`, `TEXT_EXTRACTED`, `TEXT_PARSED`,
`UNITS_CREATED`) plus the remaining states named by spec §4.1. -/
inductive ProcessingStatus where
  | Not_Processed
  | TEXT_EXTRACTED
  | TEXT_PARSED
  | UNITS_CREATED
  | PARTIALLY_MATCHED
  | FULLY_MATCHED
  | ERROR
deriving DecidableEq

/-- Errors raised by the embedded services.  Each constructor corresponds to
one `raise` site or to a well-known Python/SQLAlchemy exception class; all of
them propagate to the service's `except` handler and trigger a rollback. -/
inductive Err where
  /-- AttributeError: calling `.get` on a value that is not a dict. -/
  | attrError
  /-- KeyError from a `d[k]` subscript with a missing key. -/
  | keyError (k : String)
  /-- TypeError: subscripting, iterating or `strptime`-ing a wrongly typed value. -/
  | typeError
  /-- ValueError "File not found or not in TEXT_PARSED status". -/
  | fileNotFoundOrWrongStatus
  /-- ValueError "No parsed data found". -/
  | noParsedData
  /-- ValueError "Invalid parsed data structure". -/
  | invalidParsedDataStructure
  /-- ValueError "Trading party not found in party_codes table", carrying the search criteria. -/
  | tradingPartyNotFound (msger_name msger_address party_name : J)
  /-- ValueError "Counter party not found in party_codes table", carrying the search criteria. -/
  | counterPartyNotFound (msger_name msger_address party_name : J)
  /-- ValueError "No transactions found in parsed content" (the spec's EmptyTransactionSet). -/
  | noTransactionsFound
  /-- MultipleResultsFound from `scalar_one_or_none()` on a query with more than one row. -/
  | multipleResultsFound
  /-- ValueError from `float(...)` on an unconvertible value. -/
  | floatConvError
  /-- ValueError from `datetime.strptime(v, percent-Y-m-d)` on a malformed date string. -/
  | dateParseError (v : J)
  /-- HTTP 404 "File not found in database" (extract_text's diagnostic re-read). -/
  | fileNotFound
  /-- HTTP 400 "File has invalid status", carrying the status seen by the diagnostic re-read. -/
  | fileInvalidStatus (st : Option ProcessingStatus)
  /-- HTTP 500: the PDF extractor reported success=False. -/
  | extractionFailed
  /-- HTTP 400 "Cloud storage not yet implemented". -/
  | cloudNotImplemented
  /-- HTTP 400 "File not found or not in TEXT_EXTRACTED status" (parse_text). -/
  | parseFileNotFoundOrWrongStatus
  /-- Failure of the model-parsing collaborator (black box per the spec). -/
  | parsingFailed
deriving DecidableEq

/-- Python `d.get(k, dflt)`: returns the binding or the default on a dict,
raises AttributeError on anything else. -/
def dictGet (v : J) (k : String) (dflt : J) : Except Err J :=
  match v with
  | .obj fs => .ok ((lookupField fs k).getD dflt)
  | _ => .error .attrError

/-- Python `d.get(k)`: like `dictGet` with default `None`. -/
def dictGetOpt (v : J) (k : String) : Except Err J :=
  dictGet v k .null

/-- Python `d[k]`: raises KeyError on a dict without the key and TypeError on
a non-dict. -/
def subscript (v : J) (k : String) : Except Err J :=
  match v with
  | .obj fs =>
    match lookupField fs k with
    | some x => .ok x
    | none => .error (.keyError k)
  | _ => .error .typeError

/-- Total field access: the value bound to `k`, or `None` when `v` is not a
dict or lacks the key.  Used only where the surrounding code has already
established (by an earlier monadic `dictGet`) that `v` is a dict, where it
agrees with Python `v.get(k)`. -/
def attr (v : J) (k : String) : J :=
  match v with
  | .obj fs => (lookupField fs k).getD .null
  | _ => .null

mutual

/-- Does the string `t` occur as a string value anywhere inside `v`?  Used to
state that an audit payload does or does not reproduce a given datum. -/
def containsStr : J → String → Bool
  | .s v, t => v == t
  | .arr xs, t => containsStrList xs t
  | .obj fs, t => containsStrFields fs t
  | .null, _ => false
  | .b _, _ => false
  | .i _, _ => false
termination_by structural v _ => v

def containsStrList : List J → String → Bool
  | [], _ => false
  | x :: xs, t => containsStr x t || containsStrList xs t
termination_by structural xs _ => xs

def containsStrFields : List (String × J) → String → Bool
  | [], _ => false
  | (_, v) :: fs, t => containsStr v t || containsStrFields fs t
termination_by structural fs _ => fs

end

/-- Calendar date, as produced by `datetime.strptime(s, '%Y-%m-%d').date()`. -/
structure PyDate where
  year : Nat
  month : Nat
  day : Nat
deriving DecidableEq

/-- Gregorian leap-year test (as in Python's `datetime`). -/
def isLeapYear (y : Nat) : Bool :=
  (y % 4 == 0 && y % 100 != 0) || y % 400 == 0

/-- Number of days in a month (as validated by Python's `datetime`). -/
def daysInMonth (y m : Nat) : Nat :=
  if m == 2 then (if isLeapYear y then 29 else 28)
  else if m == 4 || m == 6 || m == 9 || m == 11 then 30
  else 31

/-- Decimal value of a digit list, `none` if empty or any non-digit. -/
def digitsToNat : List Char → Option Nat
  | [] => none
  | cs =>
    if cs.all (fun c => c.isDigit) then
      some (cs.foldl (fun n c => n * 10 + (c.toNat - '0'.toNat)) 0)
    else none

/-- Split a character list on the '-' separator. -/
def splitOnDash (cs : List Char) : List (List Char) :=
  match cs with
  | [] => [[]]
  | c :: rest =>
    let tail := splitOnDash rest
    if c == '-' then [] :: tail
    else
      match tail with
      | [] => [[c]]
      | t :: ts => (c :: t) :: ts

/-- Python `datetime.strptime(s, '%Y-%m-%d').date()`:
`%Y`, `%m`, `%d` match 1-4, 1-2 and 1-2 digits respectively, the whole string
must be consumed, and the values must form a real calendar date (`datetime`
rejects year 0 and out-of-range months/days). -/
def parseYmd (str : String) : Option PyDate :=
  match splitOnDash str.toList with
  | [ys, ms, ds] =>
    if ys.length ≤ 4 && ms.length ≤ 2 && ds.length ≤ 2 then
      match digitsToNat ys, digitsToNat ms, digitsToNat ds with
      | some y, some m, some d =>
        if 1 ≤ y && 1 ≤ m && m ≤ 12 && 1 ≤ d && d ≤ daysInMonth y m then
          some ⟨y, m, d⟩
        else none
      | _, _, _ => none
    else none
  | _ => none

/-- The `datetime.strptime(v, '%Y-%m-%d').date()` call of the services:
TypeError on a non-string, ValueError on a malformed date string. -/
def strptimeDate (v : J) : Except Err PyDate :=
  match v with
  | .s str =>
    match parseYmd str with
    | some d => .ok d
    | none => .error (.dateParseError v)
  | _ => .error .typeError

/-- Python `float(x)` restricted to the value shapes the services can feed it:
accepts numbers, booleans and strings spelling an optionally signed decimal
literal, raising ValueError/TypeError otherwise.  The converted float value
itself is never read back by any service, so the original value is kept;
only success versus exception is modelled (exponent spellings and the
inf/nan words are outside every claim and not modelled). -/
def pyFloatOk (v : J) : Bool :=
  match v with
  | .i _ => true
  | .b _ => true
  | .s str =>
    let cs := str.toList
    let body := match cs with
      | '+' :: rest => rest
      | '-' :: rest => rest
      | _ => cs
    match splitOnDash body with
    | [whole] =>
      match whole.splitOn '.' with
      | [intPart] => decide (intPart ≠ []) && intPart.all (fun c => c.isDigit)
      | [intPart, fracPart] =>
        decide (intPart ≠ [] ∨ fracPart ≠ []) &&
          intPart.all (fun c => c.isDigit) && fracPart.all (fun c => c.isDigit)
      | _ => false
    | _ => false
  | _ => false

/-- Python `float(x)` as used on `SettlementRate`: the unread converted value
is represented by the original. -/
def pyFloat (v : J) : Except Err J :=
  if pyFloatOk v then .ok v else .error .floatConvError

/-- Modelled from the spec: the `ConfirmationFile` model class as the services
use it.  The checked-in `models.py` is stale (it lacks `parsed_data`,
`total_matching_units` and the enum-typed status column the services read and
write); the field set here is the union of the columns the services access
plus `matched_units_count` from spec §3.  `processing_status` is an `Option`
because a freshly created document may carry a NULL status (spec §4.1). -/
structure ConfirmationFileRec where
  file_id : Nat
  file_name : String
  file_path : String
  extracted_text : J
  parsed_data : J
  processing_status : Option ProcessingStatus
  total_matching_units : Nat
  matched_units_count : Nat
deriving DecidableEq

/-- A `FileStatusHistory` row as the services create it (append-only audit
ledger; `transition_time` is server-assigned and carries no information the
claims read, so it is not modelled). -/
structure FileStatusHistoryRec where
  file_id : Nat
  previous_status : Option ProcessingStatus
  new_status : ProcessingStatus
  trigger_source : String
  additional_data : J
deriving DecidableEq

/-- A `PartyCode` reference row (database/models.py). -/
structure PartyCodeRec where
  party_code : String
  msger_name : Option String
  msger_address : Option String
  party_name : String
  party_role : String
  is_active : Bool
deriving DecidableEq

/-- A `MatchingUnit` row as `_create_matching_units` builds it.  `trade_uti`
is absent because the live service never sets it. -/
structure MatchingUnitRec where
  matching_unit_id : Nat
  file_id : Nat
  is_matched : Bool
  trade_type : J
  trade_date : PyDate
  settlement_date : PyDate
  trading_party_code : String
  counterparty_code : String
  trade_ref : J
  settlement_rate : Option J
  transaction_details : J
deriving DecidableEq

/-- The transactional store: the four tables the services touch.  Generated
primary keys for matching units are modelled as the next index into the
table. -/
structure DBState where
  files : List ConfirmationFileRec
  party_codes : List PartyCodeRec
  matching_units : List MatchingUnitRec
  file_status_history : List FileStatusHistoryRec
deriving DecidableEq

/-- The `SELECT ... FOR UPDATE` row read: first row satisfying the WHERE
predicate (primary keys are unique, so at most one row can match an id
filter). -/
def findFile (s : DBState) (p : ConfirmationFileRec → Bool) : Option ConfirmationFileRec :=
  s.files.find? p

/-- Staging the mutation of a loaded row: the row with `f`'s primary key is
replaced by `f`. -/
def updateFile (s : DBState) (f : ConfirmationFileRec) : DBState :=
  { s with files := s.files.map (fun g => if g.file_id == f.file_id then f else g) }

/-- Appending one audit row (`db.add(history)`). -/
def addHistory (s : DBState) (h : FileStatusHistoryRec) : DBState :=
  { s with file_status_history := s.file_status_history ++ [h] }

/-- One OR-condition of `_find_party_code`: a lookup value matches a column
when the column holds exactly that string.  A non-string lookup value matches
no row (the services only ever feed strings drawn from the parsed payload;
the columns are varchar). -/
def condMatches (v : J) (col : Option String) : Bool :=
  match col with
  | some c => v == .s c
  | none => false

/-- The WHERE clause built by `_find_party_code`: each truthy input
contributes one equality condition, OR-ed together. -/
def partyMatches (mn ma pn : J) (p : PartyCodeRec) : Bool :=
  (truthy mn && condMatches mn p.msger_name) ||
  (truthy ma && condMatches ma p.msger_address) ||
  (truthy pn && condMatches pn (some p.party_name))

/-- `_find_party_code(db, msger_name, msger_address, party_name)`: with no
truthy input it returns `None` without querying; otherwise it runs the OR
query through `scalar_one_or_none()`, which yields the row when exactly one
matches, `None` when none does, and raises MultipleResultsFound otherwise.
`is_active` is never consulted.  The returned search criteria echo the three
inputs. -/
def findPartyCode (rows : List PartyCodeRec) (mn ma pn : J) :
    Except Err (Option String × (J × J × J)) :=
  if truthy mn || truthy ma || truthy pn then
    match rows.filter (partyMatches mn ma pn) with
    | [] => .ok (none, (mn, ma, pn))
    | [p] => .ok (some p.party_code, (mn, ma, pn))
    | _ => .error .multipleResultsFound
  else .ok (none, (mn, ma, pn))

/-- Python truthiness of the optional party code string returned by
`_find_party_code` (`if not trading_party_code:`). -/
def strTruthy : Option String → Bool
  | some c => decide (c ≠ "")
  | none => false

/-- WHERE predicate of the derivation's locking read: id match and
`processing_status == TEXT_PARSED`. -/
def lockParsed (fid : Nat) (g : ConfirmationFileRec) : Bool :=
  g.file_id == fid && g.processing_status == some ProcessingStatus.TEXT_PARSED

/-- WHERE predicate of parse_text's locking read: id match and
`processing_status == TEXT_EXTRACTED`. -/
def lockExtracted (fid : Nat) (g : ConfirmationFileRec) : Bool :=
  g.file_id == fid && g.processing_status == some ProcessingStatus.TEXT_EXTRACTED

/-- WHERE predicate of extract_text's locking read: id match and status IS
NULL or equal to `Not_Processed` (the modified query handling NULL status). -/
def lockNotProcessed (fid : Nat) (g : ConfirmationFileRec) : Bool :=
  g.file_id == fid &&
    (g.processing_status == none || g.processing_status == some ProcessingStatus.Not_Processed)

/-- Plain id predicate, used by extract_text's diagnostic re-read. -/
def fileIdIs (fid : Nat) (g : ConfirmationFileRec) : Bool :=
  g.file_id == fid

/-- `_validate_parsed_content`: requires truthy `parsed_data`, unwraps
`parsed_data['parsed_result']['parsed_content']` via `.get(..., {})` twice and
requires the result to be truthy. -/
def validateParsedContent (f : ConfirmationFileRec) : Except Err J :=
  if truthy f.parsed_data then
    match dictGet f.parsed_data "parsed_result" (.obj []) with
    | .error e => .error e
    | .ok pr =>
      match dictGet pr "parsed_content" (.obj []) with
      | .error e => .error e
      | .ok pc => if truthy pc then .ok pc else .error .invalidParsedDataStructure
  else .error .noParsedData

/-- `_get_trading_party_code`: reads `MsgSender.Name`, `MsgSender.Address`
and `TradingParty` from the parsed content, resolves them through
`_find_party_code` and raises when the result is falsy. -/
def getTradingPartyCode (rows : List PartyCodeRec) (pc : J) : Except Err String :=
  match dictGet pc "MsgSender" (.obj []) with
  | .error e => .error e
  | .ok msgSender =>
    match dictGetOpt msgSender "Name" with
    | .error e => .error e
    | .ok name =>
      match dictGetOpt msgSender "Address" with
      | .error e => .error e
      | .ok addr =>
        match dictGetOpt pc "TradingParty" with
        | .error e => .error e
        | .ok tp =>
          match findPartyCode rows name addr tp with
          | .error e => .error e
          | .ok (code, _) =>
            if strTruthy code then .ok (code.getD "")
            else .error (.tradingPartyNotFound name addr tp)

/-- `_get_counter_party_code`: the counterparty analogue, reading
`MsgReceiver.Name`, `MsgReceiver.Address` and `CounterParty`. -/
def getCounterPartyCode (rows : List PartyCodeRec) (pc : J) : Except Err String :=
  match dictGet pc "MsgReceiver" (.obj []) with
  | .error e => .error e
  | .ok msgReceiver =>
    match dictGetOpt msgReceiver "Name" with
    | .error e => .error e
    | .ok name =>
      match dictGetOpt msgReceiver "Address" with
      | .error e => .error e
      | .ok addr =>
        match dictGetOpt pc "CounterParty" with
        | .error e => .error e
        | .ok cp =>
          match findPartyCode rows name addr cp with
          | .error e => .error e
          | .ok (code, _) =>
            if strTruthy code then .ok (code.getD "")
            else .error (.counterPartyNotFound name addr cp)

/-- Iterating `for trans in transactions`: the value is a sequence of
transactions.  On a truthy non-sequence Python raises as soon as the first
element is touched (the grouping loop's `.get` runs on every element), so
every truthy non-sequence ends in an exception; it is collapsed to TypeError
here. -/
def asTransactionList (v : J) : Except Err (List J) :=
  match v with
  | .arr xs => .ok xs
  | _ => .error .typeError

/-- Appending a transaction to its settlement-date group, creating the group
at the end on first sight (Python dict insertion order). -/
def addToGroup : List (J × List J) → J → J → List (J × List J)
  | [], k, t => [(k, [t])]
  | (k', ts) :: rest, k, t =>
    if k' == k then (k', ts ++ [t]) :: rest
    else (k', ts) :: addToGroup rest k t

/-- The grouping loop of `_create_matching_units`: each transaction's
`SettlementDate` is read with `.get` (raising on a non-dict element) and the
transaction is appended to that date's group only when the date is truthy —
a transaction with a missing or falsy `SettlementDate` is dropped. -/
def groupTransactions : List J → List (J × List J) → Except Err (List (J × List J))
  | [], acc => .ok acc
  | t :: ts, acc =>
    match dictGetOpt t "SettlementDate" with
    | .error e => .error e
    | .ok sd =>
      groupTransactions ts (if truthy sd then addToGroup acc sd t else acc)

/-- Predicate used to select legs: `t.get('BuyrOrSell') == side`.  Every
group member is a dict (grouping already read `.get` on it), so the total
`attr` agrees with Python here. -/
def isSide (side : String) (t : J) : Bool :=
  attr t "BuyrOrSell" == .s side

/-- The `transaction_details` JSONB built for one (pay, receive) leg pair. -/
def legDetails (payAmount payCurrency recvAmount recvCurrency : J) : J :=
  .obj [("pay_leg", .obj [("amount", payAmount), ("currency", payCurrency)]),
        ("receive_leg", .obj [("amount", recvAmount), ("currency", recvCurrency)])]

/-- The body of the per-group loop of `_create_matching_units`: select the
first `Sell` as the pay leg and the first `Buy` as the receive leg; if both
exist, parse the dates, build the details payload and the row (in the
source's evaluation order); a group lacking either side yields no row. -/
def buildUnit (fId : Nat) (tradeType tradeRef : J) (settlementRate : Option J)
    (tpc cpc : String) (muId : Nat) (settleKey : J) (group : List J) :
    Except Err (Option MatchingUnitRec) :=
  match group.find? (isSide "Sell"), group.find? (isSide "Buy") with
  | some pay, some recv =>
    match subscript pay "TradeDate" with
    | .error e => .error e
    | .ok tdRaw =>
      match strptimeDate tdRaw with
      | .error e => .error e
      | .ok tradeDate =>
        match strptimeDate settleKey with
        | .error e => .error e
        | .ok settlementDate =>
          match subscript pay "Amount" with
          | .error e => .error e
          | .ok payAmount =>
            match subscript pay "Currency" with
            | .error e => .error e
            | .ok payCurrency =>
              match subscript recv "Amount" with
              | .error e => .error e
              | .ok recvAmount =>
                match subscript recv "Currency" with
                | .error e => .error e
                | .ok recvCurrency =>
                  .ok (some
                    { matching_unit_id := muId
                      file_id := fId
                      is_matched := false
                      trade_type := tradeType
                      trade_date := tradeDate
                      settlement_date := settlementDate
                      trading_party_code := tpc
                      counterparty_code := cpc
                      trade_ref := tradeRef
                      settlement_rate := settlementRate
                      transaction_details :=
                        legDetails payAmount payCurrency recvAmount recvCurrency })
  | _, _ => .ok none

/-- The per-group loop: complete groups stage one row each (`db.add` +
`flush`, which assigns the next id) and collect the id; incomplete groups
are skipped. -/
def processGroups (fId : Nat) (tradeType tradeRef : J) (settlementRate : Option J)
    (tpc cpc : String) :
    List (J × List J) → DBState → List Nat → Except Err (List Nat × DBState)
  | [], s, ids => .ok (ids, s)
  | (k, g) :: rest, s, ids =>
    match buildUnit fId tradeType tradeRef settlementRate tpc cpc
        s.matching_units.length k g with
    | .error e => .error e
    | .ok none => processGroups fId tradeType tradeRef settlementRate tpc cpc rest s ids
    | .ok (some mu) =>
      processGroups fId tradeType tradeRef settlementRate tpc cpc rest
        { s with matching_units := s.matching_units ++ [mu] }
        (ids ++ [mu.matching_unit_id])

/-- `_create_matching_units`: header fields are read first (`TradeType`,
`TradeRef`, `SettlementRate` with its `float(...)` conversion), then the
`transactions` sequence is fetched and checked for truthiness, grouped by
settlement date, and the groups are processed in order. -/
def createMatchingUnits (s : DBState) (f : ConfirmationFileRec) (pc : J)
    (tpc cpc : String) : Except Err (List Nat × DBState) :=
  match dictGetOpt pc "TradeType" with
  | .error e => .error e
  | .ok tradeType =>
    match dictGetOpt pc "TradeRef" with
    | .error e => .error e
    | .ok tradeRef =>
      match dictGetOpt pc "SettlementRate" with
      | .error e => .error e
      | .ok srRaw =>
        match (if truthy srRaw then
                  match pyFloat srRaw with
                  | .error e => .error e
                  | .ok v => .ok (some v)
                else .ok none : Except Err (Option J)) with
        | .error e => .error e
        | .ok settlementRate =>
          match dictGet pc "transactions" (.arr []) with
          | .error e => .error e
          | .ok txRaw =>
            if truthy txRaw then
              match asTransactionList txRaw with
              | .error e => .error e
              | .ok txs =>
                match groupTransactions txs [] with
                | .error e => .error e
                | .ok groups =>
                  processGroups f.file_id tradeType tradeRef settlementRate tpc cpc
                    groups s []
            else .error .noTransactionsFound

/-- The audit payload `_update_file_status` records: the created unit count
and the stringified unit ids. -/
def muAdditionalData (ids : List Nat) : J :=
  .obj [("matching_unit_count", .i (ids.length : Int)),
        ("matching_unit_ids", .arr (ids.map (fun i => .s (toString i))))]

/-- `_update_file_status`: sets `total_matching_units` and the new status on
the loaded row and stages one history row; both are part of the same
transaction as the staged units. -/
def updateFileStatus (s : DBState) (f : ConfirmationFileRec) (ids : List Nat) : DBState :=
  let f' := { f with
    total_matching_units := ids.length
    processing_status := some ProcessingStatus.UNITS_CREATED }
  addHistory (updateFile s f')
    { file_id := f.file_id
      previous_status := some ProcessingStatus.TEXT_PARSED
      new_status := ProcessingStatus.UNITS_CREATED
      trigger_source := "extract_matching_units_api"
      additional_data := muAdditionalData ids }

/-- The body of `ExtractMatchingUnitsService.extract_matching_units`: the
locked validated read, content validation, party resolution, unit creation
and the status update, in source order.  The returned state is the staged
transaction, to be committed by the wrapper. -/
def extractMatchingUnitsSteps (fid : Nat) (s : DBState) :
    Except Err (List Nat × DBState) :=
  match findFile s (lockParsed fid) with
  | none => .error .fileNotFoundOrWrongStatus
  | some f =>
    match validateParsedContent f with
    | .error e => .error e
    | .ok pc =>
      match getTradingPartyCode s.party_codes pc with
      | .error e => .error e
      | .ok tpc =>
        match getCounterPartyCode s.party_codes pc with
        | .error e => .error e
        | .ok cpc =>
          match createMatchingUnits s f pc tpc cpc with
          | .error e => .error e
          | .ok (ids, s1) => .ok (ids, updateFileStatus s1 f ids)

/-- `ExtractMatchingUnitsService.extract_matching_units(file_id)`: commits
the staged writes on success, rolls the whole transaction back (returning
the caller's state unchanged) on any exception, re-raising the exception. -/
def extractMatchingUnits (fid : Nat) (s : DBState) : Except Err (List Nat) × DBState :=
  match extractMatchingUnitsSteps fid s with
  | .ok (ids, s1) => (.ok ids, s1)
  | .error e => (.error e, s)

/-- Modelled from the spec: the string `.value` of a `ProcessingStatus`
member (the enum declaration is missing from the checked-in models); the
spec names the states by these identifiers. -/
def ProcessingStatus.value : ProcessingStatus → String
  | .Not_Processed => "Not_Processed"
  | .TEXT_EXTRACTED => "TEXT_EXTRACTED"
  | .TEXT_PARSED => "TEXT_PARSED"
  | .UNITS_CREATED => "UNITS_CREATED"
  | .PARTIALLY_MATCHED => "PARTIALLY_MATCHED"
  | .FULLY_MATCHED => "FULLY_MATCHED"
  | .ERROR => "ERROR"

/-- The body of `ParseTextService.parse_text`.  The model-parsing
collaborator (`TextParser.parse_with_model`) is a black box per spec §6 and
enters as the outcome `parserRes`; `now` stands for the wall-clock
`datetime.utcnow().isoformat()` read.  Steps in source order: locked
validated read, collaborator call, response assembly, history row, document
update. -/
def parseTextSteps (fid : Nat) (modelId : String) (parserRes : Except Err J)
    (now : String) (s : DBState) : Except Err (J × DBState) :=
  match findFile s (lockExtracted fid) with
  | none => .error .parseFileNotFoundOrWrongStatus
  | some f =>
    match parserRes with
    | .error e => .error e
    | .ok parsedData =>
      let response : J := .obj
        [("message", .s "Text parsing completed successfully"),
         ("file_id", .s (toString f.file_id)),
         ("status", .s ProcessingStatus.TEXT_PARSED.value),
         ("parsed_data", parsedData)]
      match dictGet parsedData "model_info" (.obj []) with
      | .error e => .error e
      | .ok modelInfo =>
        let h : FileStatusHistoryRec :=
          { file_id := f.file_id
            previous_status := some ProcessingStatus.TEXT_EXTRACTED
            new_status := ProcessingStatus.TEXT_PARSED
            trigger_source := "parse_text_service"
            additional_data := .obj
              [("request", .obj [("file_id", .s (toString fid)),
                                 ("model_id", .s modelId)]),
               ("response", response),
               ("model_info", modelInfo),
               ("timestamp", .s now)] }
        let f' := { f with
          parsed_data := parsedData
          processing_status := some ProcessingStatus.TEXT_PARSED }
        .ok (response, updateFile (addHistory s h) f')

/-- `ParseTextService.parse_text(file_id, model_id)`: commit on success,
roll back (state unchanged) and re-raise on any exception. -/
def parseText (fid : Nat) (modelId : String) (parserRes : Except Err J)
    (now : String) (s : DBState) : Except Err J × DBState :=
  match parseTextSteps fid modelId parserRes now s with
  | .ok (r, s1) => (.ok r, s1)
  | .error e => (.error e, s)

/-- The `location` request field (api/routes/confirmation_files/types.py). -/
inductive LocationType where
  | LOCAL
  | CLOUD
deriving DecidableEq

/-- The string value of a `LocationType` member. -/
def LocationType.value : LocationType → String
  | .LOCAL => "local"
  | .CLOUD => "cloud"

/-- The body of `ExtractTextService.extract_text`.  The PDF extractor
(`PDFProcessor.extract_text_from_pdf`) is a black box per spec §6 and enters
as the outcome `extractorRes` (its whole result dict).  Steps in source
order: the locked read accepting NULL or `Not_Processed` status, the
diagnostic unlocked re-read on miss, the location dispatch, the collaborator
call, the success check on `result['data']['success']`, the history row (its
payload reading `result['data'].get('metadata', {})`), and the document
update reading `result['data']['text_content']`. -/
def extractTextSteps (fid : Nat) (location : LocationType)
    (extractorRes : Except Err J) (s : DBState) : Except Err (J × DBState) :=
  match findFile s (lockNotProcessed fid) with
  | none =>
    match findFile s (fileIdIs fid) with
    | some g => .error (.fileInvalidStatus g.processing_status)
    | none => .error .fileNotFound
  | some f =>
    if location == LocationType.LOCAL then
      match extractorRes with
      | .error e => .error e
      | .ok result =>
        match subscript result "data" with
        | .error e => .error e
        | .ok data =>
          match subscript data "success" with
          | .error e => .error e
          | .ok success =>
            if truthy success then
              match dictGet data "metadata" (.obj []) with
              | .error e => .error e
              | .ok meta =>
                let h : FileStatusHistoryRec :=
                  { file_id := f.file_id
                    previous_status := f.processing_status
                    new_status := ProcessingStatus.TEXT_EXTRACTED
                    trigger_source := "extract_text_service"
                    additional_data := .obj
                      [("request_params", .obj [("file_id", .s (toString fid)),
                                                ("location", .s location.value)]),
                       ("extraction_metadata", meta)] }
                match subscript data "text_content" with
                | .error e => .error e
                | .ok textContent =>
                  let f' := { f with
                    extracted_text := textContent
                    processing_status := some ProcessingStatus.TEXT_EXTRACTED }
                  .ok (result, updateFile (addHistory s h) f')
            else .error .extractionFailed
    else .error .cloudNotImplemented

/-- `ExtractTextService.extract_text(file_id, location)`: commit on success,
roll back (state unchanged) and re-raise on any exception. -/
def extractText (fid : Nat) (location : LocationType)
    (extractorRes : Except Err J) (s : DBState) : Except Err J × DBState :=
  match extractTextSteps fid location extractorRes s with
  | .ok (r, s1) => (.ok r, s1)
  | .error e => (.error e, s)

/-- Decidable equality of service outcomes, for evaluating the scenario
theorems. -/
instance {ε α : Type} [DecidableEq ε] [DecidableEq α] : DecidableEq (Except ε α)
  | .ok x, .ok y =>
    if h : x = y then isTrue (h ▸ rfl) else isFalse (fun hh => h (Except.ok.inj hh))
  | .error a, .error b =>
    if h : a = b then isTrue (h ▸ rfl) else isFalse (fun hh => h (Except.error.inj hh))
  | .ok _, .error _ => isFalse nofun
  | .error _, .ok _ => isFalse nofun

/-! Concrete fixtures used by the scenario theorems and counterexamples. -/

/-- Reference rows: one bank (the trading party) and one corporate (the
counterparty). -/
def demoPartyRows : List PartyCodeRec :=
  [{ party_code := "BANKA", msger_name := some "Alpha Bank", msger_address := none,
     party_name := "Alpha Bank Ltd", party_role := "bank", is_active := true },
   { party_code := "CORPB", msger_name := some "Beta Corp", msger_address := none,
     party_name := "Beta Corporation", party_role := "corporate", is_active := true }]

/-- The scenario's Sell transaction: 100 USD settling 2025-03-01. -/
def sellTx : J := .obj
  [("SettlementDate", .s "2025-03-01"), ("BuyrOrSell", .s "Sell"),
   ("Amount", .i 100), ("Currency", .s "USD"), ("TradeDate", .s "2025-02-25")]

/-- The scenario's Buy transaction: 100 EUR settling 2025-03-01. -/
def buyTx : J := .obj
  [("SettlementDate", .s "2025-03-01"), ("BuyrOrSell", .s "Buy"),
   ("Amount", .i 100), ("Currency", .s "EUR"), ("TradeDate", .s "2025-02-25")]

/-- The spec §8 scenario payload: two transactions sharing settlement date
2025-03-01, a Sell of 100 USD and a Buy of 100 EUR. -/
def c3ParsedContent : J := .obj
  [("MsgSender", .obj [("Name", .s "Alpha Bank")]),
   ("MsgReceiver", .obj [("Name", .s "Beta Corp")]),
   ("TradingParty", .s "Alpha Bank Ltd"),
   ("CounterParty", .s "Beta Corporation"),
   ("TradeType", .s "FX"),
   ("TradeRef", .s "TR1"),
   ("transactions", .arr [sellTx, buyTx])]

/-- A document in TEXT_PARSED status holding the scenario payload.  Its
`matched_units_count` is deliberately nonzero to observe whether derivation
resets it. -/
def c3File : ConfirmationFileRec :=
  { file_id := 1, file_name := "conf1.pdf", file_path := "/files/conf1.pdf",
    extracted_text := .s "raw text",
    parsed_data := .obj [("parsed_result", .obj [("parsed_content", c3ParsedContent)])],
    processing_status := some ProcessingStatus.TEXT_PARSED,
    total_matching_units := 0, matched_units_count := 5 }

/-- Store holding the scenario document and the two reference rows. -/
def c3State : DBState :=
  { files := [c3File], party_codes := demoPartyRows,
    matching_units := [], file_status_history := [] }

/-- A document in TEXT_EXTRACTED status, ready for parsing. -/
def c2File : ConfirmationFileRec :=
  { file_id := 4, file_name := "conf4.pdf", file_path := "/files/conf4.pdf",
    extracted_text := .s "raw text", parsed_data := .null,
    processing_status := some ProcessingStatus.TEXT_EXTRACTED,
    total_matching_units := 0, matched_units_count := 0 }

/-- Store holding only the TEXT_EXTRACTED document. -/
def c2State : DBState :=
  { files := [c2File], party_codes := [], matching_units := [], file_status_history := [] }

/-- The single matching unit the scenario derivation creates. -/
def c3Unit : MatchingUnitRec :=
  { matching_unit_id := 0, file_id := 1, is_matched := false,
    trade_type := .s "FX",
    trade_date := ⟨2025, 2, 25⟩, settlement_date := ⟨2025, 3, 1⟩,
    trading_party_code := "BANKA", counterparty_code := "CORPB",
    trade_ref := .s "TR1", settlement_rate := none,
    transaction_details := legDetails (.i 100) (.s "USD") (.i 100) (.s "EUR") }

/-- The staged state after the scenario's unit creation, before the status
update: the single derived unit has been added. -/
def c6S1 : DBState := { c3State with matching_units := [c3Unit] }

/-- Parsed content with no `transactions` key and a sender no reference row
matches. -/
def c5ParsedContent : J := .obj [("MsgSender", .obj [("Name", .s "Nobody")])]

/-- A TEXT_PARSED document carrying `c5ParsedContent`. -/
def c5File : ConfirmationFileRec :=
  { file_id := 2, file_name := "conf2.pdf", file_path := "/files/conf2.pdf",
    extracted_text := .s "raw text",
    parsed_data := .obj [("parsed_result", .obj [("parsed_content", c5ParsedContent)])],
    processing_status := some ProcessingStatus.TEXT_PARSED,
    total_matching_units := 0, matched_units_count := 0 }

/-- Store with the no-transactions document and an empty party table: both
the trading party and the transactions sequence are missing. -/
def c5State : DBState :=
  { files := [c5File], party_codes := [], matching_units := [], file_status_history := [] }

/-- Parsed content with resolvable parties but no `transactions` key. -/
def c5bParsedContent : J := .obj
  [("MsgSender", .obj [("Name", .s "Alpha Bank")]),
   ("MsgReceiver", .obj [("Name", .s "Beta Corp")]),
   ("TradingParty", .s "Alpha Bank Ltd"),
   ("CounterParty", .s "Beta Corporation")]

/-- A TEXT_PARSED document carrying `c5bParsedContent`. -/
def c5bFile : ConfirmationFileRec :=
  { file_id := 5, file_name := "conf5.pdf", file_path := "/files/conf5.pdf",
    extracted_text := .s "raw text",
    parsed_data := .obj [("parsed_result", .obj [("parsed_content", c5bParsedContent)])],
    processing_status := some ProcessingStatus.TEXT_PARSED,
    total_matching_units := 0, matched_units_count := 0 }

/-- Store where both parties resolve but the payload has no transactions. -/
def c5bState : DBState :=
  { files := [c5bFile], party_codes := demoPartyRows,
    matching_units := [], file_status_history := [] }

/-- Parsed content whose trading party resolves but whose receiver matches
no reference row; no `transactions` key. -/
def c5cParsedContent : J := .obj
  [("MsgSender", .obj [("Name", .s "Alpha Bank")]),
   ("TradingParty", .s "Alpha Bank Ltd"),
   ("MsgReceiver", .obj [("Name", .s "NobodyElse")])]

/-- A TEXT_PARSED document carrying `c5cParsedContent`. -/
def c5cFile : ConfirmationFileRec :=
  { file_id := 11, file_name := "conf11.pdf", file_path := "/files/conf11.pdf",
    extracted_text := .s "raw text",
    parsed_data := .obj [("parsed_result", .obj [("parsed_content", c5cParsedContent)])],
    processing_status := some ProcessingStatus.TEXT_PARSED,
    total_matching_units := 0, matched_units_count := 0 }

/-- Store where the trading party resolves but the counterparty does not,
and the payload has no transactions. -/
def c5cState : DBState :=
  { files := [c5cFile], party_codes := demoPartyRows,
    matching_units := [], file_status_history := [] }

/-- A freshly registered document with a NULL processing status. -/
def c8File : ConfirmationFileRec :=
  { file_id := 6, file_name := "conf6.pdf", file_path := "/files/conf6.pdf",
    extracted_text := .null, parsed_data := .null,
    processing_status := none,
    total_matching_units := 0, matched_units_count := 0 }

/-- Store holding only the fresh document. -/
def c8State : DBState :=
  { files := [c8File], party_codes := [], matching_units := [], file_status_history := [] }

/-- The same document with the explicit `Not_Processed` status. -/
def c8FileNP : ConfirmationFileRec :=
  { c8File with file_id := 7, processing_status := some ProcessingStatus.Not_Processed }

/-- Store holding only the explicitly `Not_Processed` document. -/
def c8StateNP : DBState :=
  { files := [c8FileNP], party_codes := [], matching_units := [], file_status_history := [] }

/-- A successful PDF-extractor result dict. -/
def demoExtractorResult : J := .obj
  [("data", .obj [("success", .b true), ("text_content", .s "TXT"),
                  ("metadata", .obj [("pages", .i 2)])])]

/-- A transaction with no `SettlementDate` key at all. -/
def orphanTx : J := .obj
  [("BuyrOrSell", .s "Sell"), ("Amount", .i 1), ("Currency", .s "USD"),
   ("TradeDate", .s "2025-02-25")]

/-- The scenario payload with the orphan transaction prepended. -/
def c9ParsedContent : J := .obj
  [("MsgSender", .obj [("Name", .s "Alpha Bank")]),
   ("MsgReceiver", .obj [("Name", .s "Beta Corp")]),
   ("TradingParty", .s "Alpha Bank Ltd"),
   ("CounterParty", .s "Beta Corporation"),
   ("TradeType", .s "FX"),
   ("TradeRef", .s "TR1"),
   ("transactions", .arr [orphanTx, sellTx, buyTx])]

/-- A TEXT_PARSED document carrying `c9ParsedContent`. -/
def c9File : ConfirmationFileRec :=
  { file_id := 3, file_name := "conf3.pdf", file_path := "/files/conf3.pdf",
    extracted_text := .s "raw text",
    parsed_data := .obj [("parsed_result", .obj [("parsed_content", c9ParsedContent)])],
    processing_status := some ProcessingStatus.TEXT_PARSED,
    total_matching_units := 0, matched_units_count := 0 }

/-- Store with the orphan-transaction document and the reference rows. -/
def c9State : DBState :=
  { files := [c9File], party_codes := demoPartyRows,
    matching_units := [], file_status_history := [] }

/-- Two reference rows sharing the same legal party name: an ambiguous
lookup. -/
def dupRows : List PartyCodeRec :=
  [{ party_code := "D1", msger_name := none, msger_address := none,
     party_name := "Dup Corp", party_role := "corporate", is_active := true },
   { party_code := "D2", msger_name := none, msger_address := none,
     party_name := "Dup Corp", party_role := "bank", is_active := false }]

/-- Parsed content whose trading-party name matches both `dupRows` rows. -/
def c10ParsedContent : J := .obj
  [("MsgSender", .obj []), ("TradingParty", .s "Dup Corp")]

/-- A TEXT_PARSED document carrying `c10ParsedContent`. -/
def c10File : ConfirmationFileRec :=
  { file_id := 8, file_name := "conf8.pdf", file_path := "/files/conf8.pdf",
    extracted_text := .s "raw text",
    parsed_data := .obj [("parsed_result", .obj [("parsed_content", c10ParsedContent)])],
    processing_status := some ProcessingStatus.TEXT_PARSED,
    total_matching_units := 0, matched_units_count := 0 }

/-- Store pairing the ambiguous document with the duplicate rows. -/
def c10State : DBState :=
  { files := [c10File], party_codes := dupRows,
    matching_units := [], file_status_history := [] }

/-- The scenario payload with a non-dict element in the transactions list. -/
def c9bParsedContent : J := .obj
  [("MsgSender", .obj [("Name", .s "Alpha Bank")]),
   ("MsgReceiver", .obj [("Name", .s "Beta Corp")]),
   ("TradingParty", .s "Alpha Bank Ltd"),
   ("CounterParty", .s "Beta Corporation"),
   ("TradeType", .s "FX"),
   ("TradeRef", .s "TR1"),
   ("transactions", .arr [.s "oops", sellTx, buyTx])]

/-- A TEXT_PARSED document carrying `c9bParsedContent`. -/
def c9bFile : ConfirmationFileRec :=
  { file_id := 10, file_name := "conf10.pdf", file_path := "/files/conf10.pdf",
    extracted_text := .s "raw text",
    parsed_data := .obj [("parsed_result", .obj [("parsed_content", c9bParsedContent)])],
    processing_status := some ProcessingStatus.TEXT_PARSED,
    total_matching_units := 0, matched_units_count := 0 }

/-- Store with the non-dict-transaction document and the reference rows. -/
def c9bState : DBState :=
  { files := [c9bFile], party_codes := demoPartyRows,
    matching_units := [], file_status_history := [] }

/-! Helper lemmas (shared; none of these is a claim's theorem). -/

theorem extractMU_steps_error {fid : Nat} {s : DBState} {e : Err}
    (h : extractMatchingUnitsSteps fid s = .error e) :
    extractMatchingUnits fid s = (.error e, s) := by
  simp [extractMatchingUnits, h]

theorem extractMU_steps_ok {fid : Nat} {s : DBState} {ids : List Nat} {s1 : DBState}
    (h : extractMatchingUnitsSteps fid s = .ok (ids, s1)) :
    extractMatchingUnits fid s = (.ok ids, s1) := by
  simp [extractMatchingUnits, h]

theorem parseText_steps_error {fid : Nat} {mid now : String} {pr : Except Err J}
    {s : DBState} {e : Err} (h : parseTextSteps fid mid pr now s = .error e) :
    parseText fid mid pr now s = (.error e, s) := by
  simp [parseText, h]

theorem find_and_none_of_filter_nil {α : Type} (idm P : α → Bool) :
    ∀ l : List α, l.filter idm = [] → l.find? (fun a => idm a && P a) = none := by
  intro l
  induction l with
  | nil => simp
  | cons a l ih =>
    intro h
    cases ha : idm a with
    | true => rw [List.filter_cons_of_pos ha] at h; exact absurd h (by simp)
    | false =>
      rw [List.filter_cons_of_neg (by simp [ha])] at h
      simp [List.find?, ha, ih h]

theorem find_and_of_filter_singleton {α : Type} (idm P : α → Bool) (f : α) :
    ∀ l : List α, l.filter idm = [f] →
      l.find? (fun a => idm a && P a) = if P f then some f else none := by
  intro l
  induction l with
  | nil => simp
  | cons a l ih =>
    intro h
    cases ha : idm a with
    | true =>
      rw [List.filter_cons_of_pos ha] at h
      injection h with h1 h2
      subst h1
      cases hP : P a with
      | true => simp [List.find?, ha, hP]
      | false => simp [List.find?, ha, hP, find_and_none_of_filter_nil idm P l h2]
    | false =>
      rw [List.filter_cons_of_neg (by simp [ha])] at h
      simp [List.find?, ha, ih h]

theorem find_self_of_filter_singleton {α : Type} (idm : α → Bool) (f : α) :
    ∀ l : List α, l.filter idm = [f] → l.find? idm = some f := by
  intro l
  induction l with
  | nil => simp
  | cons a l ih =>
    intro h
    cases ha : idm a with
    | true =>
      rw [List.filter_cons_of_pos ha] at h
      injection h with h1 h2
      subst h1
      simp [List.find?, ha]
    | false =>
      rw [List.filter_cons_of_neg (by simp [ha])] at h
      simp [List.find?, ha, ih h]

theorem filter_nil_map_update {α : Type} (idm : α → Bool) (upd : α → α)
    (hid : ∀ a, idm a = false → upd a = a) :
    ∀ l : List α, l.filter idm = [] → (l.map upd).filter idm = [] := by
  intro l
  induction l with
  | nil => simp
  | cons a l ih =>
    intro h
    cases ha : idm a with
    | true => rw [List.filter_cons_of_pos ha] at h; exact absurd h (by simp)
    | false =>
      rw [List.filter_cons_of_neg (by simp [ha])] at h
      rw [List.map_cons, hid a ha, List.filter_cons_of_neg (by simp [ha])]
      exact ih h

theorem filter_singleton_map_update {α : Type} (idm : α → Bool) (upd : α → α)
    (f f' : α) (hupd : ∀ a, idm a = true → upd a = f') (hid : ∀ a, idm a = false → upd a = a)
    (hidf' : idm f' = true) :
    ∀ l : List α, l.filter idm = [f] → (l.map upd).filter idm = [f'] := by
  intro l
  induction l with
  | nil => simp
  | cons a l ih =>
    intro h
    cases ha : idm a with
    | true =>
      rw [List.filter_cons_of_pos ha] at h
      injection h with h1 h2
      rw [List.map_cons, hupd a ha, List.filter_cons_of_pos hidf',
        filter_nil_map_update idm upd hid l h2]
    | false =>
      rw [List.filter_cons_of_neg (by simp [ha])] at h
      rw [List.map_cons, hid a ha, List.filter_cons_of_neg (by simp [ha])]
      exact ih h

theorem dictGet_ok_obj {v : J} {k : String} {d x : J} (h : dictGet v k d = .ok x) :
    ∃ fs, v = .obj fs := by
  cases v <;> simp [dictGet] at h <;> exact ⟨_, rfl⟩

theorem dictGetOpt_ok_attr {v : J} {k : String} {x : J} (h : dictGetOpt v k = .ok x) :
    attr v k = x := by
  cases v <;> simp [dictGetOpt, dictGet, attr] at h ⊢ <;> simp [h]

theorem subscript_ok_attr {v : J} {k : String} {x : J} (h : subscript v k = .ok x) :
    attr v k = x := by
  cases v <;> simp [subscript, attr] at h ⊢
  cases hl : lookupField _ k <;> simp [hl] at h ⊢ <;> simp [h]

/-! Claim theorems. -/

/-- C1: for every invocation of a state-changing operation (text extraction,
text parsing, matching-unit derivation), if any step fails — precondition
check, party resolution, or any later exception — then no StatusHistoryEntry
is created and no document field or matching-unit row is persisted: the
whole transaction is rolled back, leaving the stored state exactly as before
the call (the result state equals the input state whenever the outcome is an
error). -/
theorem c1_failure_rolls_back_all_writes :
    (∀ (fid : Nat) (loc : LocationType) (er : Except Err J) (s : DBState) (e : Err),
       (extractText fid loc er s).1 = .error e → (extractText fid loc er s).2 = s) ∧
    (∀ (fid : Nat) (mid : String) (pr : Except Err J) (now : String) (s : DBState) (e : Err),
       (parseText fid mid pr now s).1 = .error e → (parseText fid mid pr now s).2 = s) ∧
    (∀ (fid : Nat) (s : DBState) (e : Err),
       (extractMatchingUnits fid s).1 = .error e → (extractMatchingUnits fid s).2 = s) := by
  refine ⟨fun fid loc er s e h => ?_, fun fid mid pr now s e h => ?_, fun fid s e h => ?_⟩
  · cases hs : extractTextSteps fid loc er s with
    | ok v => simp [extractText, hs] at h
    | error e1 => simp [extractText, hs]
  · cases hs : parseTextSteps fid mid pr now s with
    | ok v => simp [parseText, hs] at h
    | error e1 => simp [parseText, hs]
  · cases hs : extractMatchingUnitsSteps fid s with
    | ok v => cases v with | mk ids s1 => simp [extractMatchingUnits, hs] at h
    | error e1 => simp [extractMatchingUnits, hs]

/-- Witness for C1: all three operations, run on an empty store, fail (no
such document) and leave the store unchanged. -/
theorem c1_failure_rolls_back_all_writes_witness :
    (extractText 0 LocationType.LOCAL (.ok .null) ⟨[], [], [], []⟩).2 = ⟨[], [], [], []⟩ ∧
    (parseText 0 "m" (.ok .null) "t" ⟨[], [], [], []⟩).2 = ⟨[], [], [], []⟩ ∧
    (extractMatchingUnits 0 ⟨[], [], [], []⟩).2 = ⟨[], [], [], []⟩ :=
  ⟨c1_failure_rolls_back_all_writes.1 0 LocationType.LOCAL (.ok .null) ⟨[], [], [], []⟩
      .fileNotFound (by decide),
   c1_failure_rolls_back_all_writes.2.1 0 "m" (.ok .null) "t" ⟨[], [], [], []⟩
      .parseFileNotFoundOrWrongStatus (by decide),
   c1_failure_rolls_back_all_writes.2.2 0 ⟨[], [], [], []⟩
      .fileNotFoundOrWrongStatus (by decide)⟩

/-- The response payload `parse_text` returns for a given document and
parsed payload. -/
def parseResponse (f : ConfirmationFileRec) (parsedData : J) : J :=
  .obj [("message", .s "Text parsing completed successfully"),
        ("file_id", .s (toString f.file_id)),
        ("status", .s ProcessingStatus.TEXT_PARSED.value),
        ("parsed_data", parsedData)]

/-- The history row `parse_text` stages. -/
def parseHistoryEntry (f : ConfirmationFileRec) (fid : Nat) (modelId now : String)
    (parsedData modelInfo : J) : FileStatusHistoryRec :=
  { file_id := f.file_id
    previous_status := some ProcessingStatus.TEXT_EXTRACTED
    new_status := ProcessingStatus.TEXT_PARSED
    trigger_source := "parse_text_service"
    additional_data := .obj
      [("request", .obj [("file_id", .s (toString fid)), ("model_id", .s modelId)]),
       ("response", parseResponse f parsedData),
       ("model_info", modelInfo),
       ("timestamp", .s now)] }

theorem parseText_run (s : DBState) (fid : Nat) (f : ConfirmationFileRec)
    (mid now : String) (fs : List (String × J))
    (hfind : findFile s (lockExtracted fid) = some f) :
    parseText fid mid (.ok (.obj fs)) now s =
      (.ok (parseResponse f (.obj fs)),
       updateFile
         (addHistory s
           (parseHistoryEntry f fid mid now (.obj fs)
             ((lookupField fs "model_info").getD (.obj []))))
         { f with parsed_data := .obj fs
                  processing_status := some ProcessingStatus.TEXT_PARSED }) := by
  simp [parseText, parseTextSteps, hfind, dictGet, parseResponse, parseHistoryEntry]

/-- C2: for every document in TEXT_EXTRACTED status, when two callers
concurrently invoke beginParsing on it, exactly one call succeeds (the
document ends in TEXT_PARSED with exactly one new StatusHistoryEntry) and
the other call observes InvalidStateTransition; at most one transition away
from a given status ever succeeds under concurrent racing callers.  The
`SELECT ... FOR UPDATE` row lock serializes the two competitors (spec §5),
so the race is modelled as the winner's transaction followed by the loser's:
the loser's re-evaluated status predicate no longer matches and it fails with
the invalid-state error, leaving no trace. -/
theorem c2_concurrent_parse_serialized
    (s : DBState) (fid : Nat) (f : ConfirmationFileRec)
    (mid1 mid2 now1 now2 : String) (fs : List (String × J)) (p2 : Except Err J)
    (hu : s.files.filter (fun g => g.file_id == fid) = [f])
    (hst : f.processing_status = some ProcessingStatus.TEXT_EXTRACTED) :
    (∃ r, (parseText fid mid1 (.ok (.obj fs)) now1 s).1 = .ok r) ∧
    ((parseText fid mid1 (.ok (.obj fs)) now1 s).2.files.filter
        (fun g => g.file_id == fid)).map (fun g => g.processing_status) =
      [some ProcessingStatus.TEXT_PARSED] ∧
    (parseText fid mid1 (.ok (.obj fs)) now1 s).2.file_status_history.length =
      s.file_status_history.length + 1 ∧
    (parseText fid mid2 p2 now2 ((parseText fid mid1 (.ok (.obj fs)) now1 s).2)).1 =
      .error Err.parseFileNotFoundOrWrongStatus ∧
    (parseText fid mid2 p2 now2 ((parseText fid mid1 (.ok (.obj fs)) now1 s).2)).2 =
      (parseText fid mid1 (.ok (.obj fs)) now1 s).2 := by
  have hmem : f ∈ s.files.filter (fun g => g.file_id == fid) := by
    rw [hu]; exact List.mem_singleton_self f
  have hfid : f.file_id = fid := by simpa using List.of_mem_filter hmem
  have hfind : findFile s (lockExtracted fid) = some f := by
    have h1 := find_and_of_filter_singleton (fun g => g.file_id == fid)
        (fun g => g.processing_status == some ProcessingStatus.TEXT_EXTRACTED) f s.files hu
    simpa [findFile, lockExtracted, hst] using h1
  have hrun := parseText_run s fid f mid1 now1 fs hfind
  set f' : ConfirmationFileRec :=
    { f with parsed_data := .obj fs
             processing_status := some ProcessingStatus.TEXT_PARSED } with hf'
  have hfilter2 :
      (parseText fid mid1 (.ok (.obj fs)) now1 s).2.files.filter
        (fun g => g.file_id == fid) = [f'] := by
    rw [hrun]
    exact filter_singleton_map_update (fun g => g.file_id == fid)
      (fun g => if g.file_id == f'.file_id then f' else g) f f'
      (fun a ha => by
        have : a.file_id = fid := by simpa using ha
        simp [this, hf', hfid])
      (fun a ha => by
        have : a.file_id ≠ fid := by simpa using ha
        simp [hf', hfid, this])
      (by simp [hf', hfid])
      s.files hu
  have hfind2 :
      findFile (parseText fid mid1 (.ok (.obj fs)) now1 s).2 (lockExtracted fid) = none := by
    have h1 := find_and_of_filter_singleton (fun g => g.file_id == fid)
        (fun g => g.processing_status == some ProcessingStatus.TEXT_EXTRACTED) f'
        (parseText fid mid1 (.ok (.obj fs)) now1 s).2.files hfilter2
    simpa [findFile, lockExtracted, hf'] using h1
  have herr : parseTextSteps fid mid2 p2 now2
      (parseText fid mid1 (.ok (.obj fs)) now1 s).2 =
      .error Err.parseFileNotFoundOrWrongStatus := by
    simp only [parseTextSteps, hfind2]
  refine ⟨⟨parseResponse f (.obj fs), by rw [hrun]⟩, ?_, ?_, ?_, ?_⟩
  · rw [hfilter2]; simp [hf']
  · rw [hrun]; simp [updateFile, addHistory]
  · rw [parseText_steps_error herr]
  · rw [parseText_steps_error herr]

/-- Witness for C2: a concrete TEXT_EXTRACTED document raced by two parse
calls — the first ends TEXT_PARSED with one history row, the second fails
and changes nothing. -/
theorem c2_concurrent_parse_serialized_witness :
    (∃ r, (parseText 4 "m1" (.ok (.obj [])) "t1" c2State).1 = .ok r) ∧
    ((parseText 4 "m1" (.ok (.obj [])) "t1" c2State).2.files.filter
        (fun g => g.file_id == 4)).map (fun g => g.processing_status) =
      [some ProcessingStatus.TEXT_PARSED] ∧
    (parseText 4 "m1" (.ok (.obj [])) "t1" c2State).2.file_status_history.length =
      c2State.file_status_history.length + 1 ∧
    (parseText 4 "m2" (.ok (.obj [])) "t2"
        ((parseText 4 "m1" (.ok (.obj [])) "t1" c2State).2)).1 =
      .error Err.parseFileNotFoundOrWrongStatus ∧
    (parseText 4 "m2" (.ok (.obj [])) "t2"
        ((parseText 4 "m1" (.ok (.obj [])) "t1" c2State).2)).2 =
      (parseText 4 "m1" (.ok (.obj [])) "t1" c2State).2 :=
  c2_concurrent_parse_serialized c2State 4 c2File "m1" "m2" "t1" "t2" [] (.ok (.obj []))
    (by decide) (by decide)

/-- The history row `extract_text` stages. -/
def extractHistoryEntry (f : ConfirmationFileRec) (fid : Nat) (location : LocationType)
    (meta : J) : FileStatusHistoryRec :=
  { file_id := f.file_id
    previous_status := f.processing_status
    new_status := ProcessingStatus.TEXT_EXTRACTED
    trigger_source := "extract_text_service"
    additional_data := .obj
      [("request_params", .obj [("file_id", .s (toString fid)),
                                ("location", .s location.value)]),
       ("extraction_metadata", meta)] }

theorem extractText_steps_error {fid : Nat} {loc : LocationType} {er : Except Err J}
    {s : DBState} {e : Err} (h : extractTextSteps fid loc er s = .error e) :
    extractText fid loc er s = (.error e, s) := by
  simp [extractText, h]

theorem extractText_run {fid : Nat} {s : DBState} {f : ConfirmationFileRec}
    {res data sv meta tc : J}
    (hfind : findFile s (lockNotProcessed fid) = some f)
    (hdata : subscript res "data" = .ok data)
    (hsucc : subscript data "success" = .ok sv)
    (htr : truthy sv = true)
    (hmeta : dictGet data "metadata" (.obj []) = .ok meta)
    (htc : subscript data "text_content" = .ok tc) :
    extractText fid LocationType.LOCAL (.ok res) s =
      (.ok res,
       updateFile (addHistory s (extractHistoryEntry f fid LocationType.LOCAL meta))
         { f with extracted_text := tc
                  processing_status := some ProcessingStatus.TEXT_EXTRACTED }) := by
  simp [extractText, extractTextSteps, hfind, hdata, hsucc, htr, hmeta, htc,
    extractHistoryEntry]

/-- C3: for a document in TEXT_PARSED status whose parsed content has
resolvable trading party and counterparty and whose transactions list
contains, for one settlement date string, a Sell of 100 USD (TradeDate
2025-02-25) and a Buy of 100 EUR, derivation creates exactly one
MatchingUnit whose settlement_date is the parsed date 2025-03-01, whose
transaction_details name USD as the pay-leg currency and EUR as the
receive-leg currency, and afterwards the document's status is UNITS_CREATED
with total_matching_units equal to 1. -/
theorem c3_scenario_single_unit :
    (extractMatchingUnits 1 c3State).1 = .ok [0] ∧
    (extractMatchingUnits 1 c3State).2.matching_units = [c3Unit] ∧
    c3Unit.settlement_date = ⟨2025, 3, 1⟩ ∧
    parseYmd "2025-03-01" = some c3Unit.settlement_date ∧
    attr (attr c3Unit.transaction_details "pay_leg") "currency" = .s "USD" ∧
    attr (attr c3Unit.transaction_details "receive_leg") "currency" = .s "EUR" ∧
    c3Unit.trade_date = ⟨2025, 2, 25⟩ ∧
    (extractMatchingUnits 1 c3State).2.files.map
        (fun g => (g.processing_status, g.total_matching_units)) =
      [(some ProcessingStatus.UNITS_CREATED, 1)] := by decide

theorem processGroups_preserves (fId : Nat) (tt tr : J) (sr : Option J) (tpc cpc : String) :
    ∀ (groups : List (J × List J)) (s : DBState) (ids ids1 : List Nat) (s1 : DBState),
      processGroups fId tt tr sr tpc cpc groups s ids = .ok (ids1, s1) →
      s1.files = s.files ∧ s1.file_status_history = s.file_status_history ∧
        s1.party_codes = s.party_codes := by
  intro groups
  induction groups with
  | nil =>
    intro s ids ids1 s1 h
    simp [processGroups] at h
    simp [h.2]
  | cons p rest ih =>
    intro s ids ids1 s1 h
    cases p with
    | mk k g =>
      simp only [processGroups] at h
      cases hb : buildUnit fId tt tr sr tpc cpc s.matching_units.length k g with
      | error e => simp [hb] at h
      | ok mu? =>
        simp only [hb] at h
        cases mu? with
        | none => exact ih s ids ids1 s1 (by simpa using h)
        | some mu =>
          exact ih { s with matching_units := s.matching_units ++ [mu] }
            (ids ++ [mu.matching_unit_id]) ids1 s1 (by simpa using h)

theorem createMatchingUnits_preserves {s : DBState} {f : ConfirmationFileRec} {pc : J}
    {tpc cpc : String} {ids : List Nat} {s1 : DBState}
    (h : createMatchingUnits s f pc tpc cpc = .ok (ids, s1)) :
    s1.files = s.files ∧ s1.file_status_history = s.file_status_history ∧
      s1.party_codes = s.party_codes := by
  unfold createMatchingUnits at h
  cases h1 : dictGetOpt pc "TradeType" with
  | error e => simp [h1] at h
  | ok tradeType =>
  simp only [h1] at h
  cases h2 : dictGetOpt pc "TradeRef" with
  | error e => simp [h2] at h
  | ok tradeRef =>
  simp only [h2] at h
  cases h3 : dictGetOpt pc "SettlementRate" with
  | error e => simp [h3] at h
  | ok srRaw =>
  simp only [h3] at h
  by_cases hsr : truthy srRaw = true
  case neg =>
    rw [if_neg hsr] at h
    simp only [] at h
    cases h5 : dictGet pc "transactions" (.arr []) with
    | error e => simp [h5] at h
    | ok txRaw =>
    simp only [h5] at h
    by_cases h6 : truthy txRaw = true
    case neg => simp [if_neg h6] at h
    case pos =>
    rw [if_pos h6] at h
    cases h7 : asTransactionList txRaw with
    | error e => simp [h7] at h
    | ok txs =>
    simp only [h7] at h
    cases h8 : groupTransactions txs [] with
    | error e => simp [h8] at h
    | ok groups =>
    simp only [h8] at h
    exact processGroups_preserves f.file_id tradeType tradeRef none tpc cpc
      groups s [] ids s1 h
  case pos =>
    rw [if_pos hsr] at h
    cases h4 : pyFloat srRaw with
    | error e => simp [h4] at h
    | ok v =>
    simp only [h4] at h
    cases h5 : dictGet pc "transactions" (.arr []) with
    | error e => simp [h5] at h
    | ok txRaw =>
    simp only [h5] at h
    by_cases h6 : truthy txRaw = true
    case neg => simp [if_neg h6] at h
    case pos =>
    rw [if_pos h6] at h
    cases h7 : asTransactionList txRaw with
    | error e => simp [h7] at h
    | ok txs =>
    simp only [h7] at h
    cases h8 : groupTransactions txs [] with
    | error e => simp [h8] at h
    | ok groups =>
    simp only [h8] at h
    exact processGroups_preserves f.file_id tradeType tradeRef (some v) tpc cpc
      groups s [] ids s1 h

theorem extractMU_run {fid : Nat} {s : DBState} {f : ConfirmationFileRec} {pc : J}
    {tpc cpc : String} {ids : List Nat} {s1 : DBState}
    (hfind : findFile s (lockParsed fid) = some f)
    (hv : validateParsedContent f = .ok pc)
    (htp : getTradingPartyCode s.party_codes pc = .ok tpc)
    (hcp : getCounterPartyCode s.party_codes pc = .ok cpc)
    (hcreate : createMatchingUnits s f pc tpc cpc = .ok (ids, s1)) :
    extractMatchingUnits fid s = (.ok ids, updateFileStatus s1 f ids) := by
  simp only [extractMatchingUnits, extractMatchingUnitsSteps, hfind, hv, htp, hcp, hcreate]

/-- C6 counterexample: the spec-scenario derivation succeeds, yet the
document's `matched_units_count` — 5 before the call — is still 5 afterwards,
not reset to zero as the claim states.  (No service in the source ever
writes `matched_units_count`.) -/
theorem c6_counterexample_matched_count_not_reset :
    (extractMatchingUnits 1 c3State).1 = .ok [0] ∧
    c3File.matched_units_count = 5 ∧
    (extractMatchingUnits 1 c3State).2.files.map (fun g => g.matched_units_count) =
      [5] := by decide

/-- C6 (amended): after a successful derivation the document's
`total_matching_units` equals the number of MatchingUnits created in that
transaction, the status becomes UNITS_CREATED and one history row is staged
in the same transaction; `matched_units_count`, however, is left unchanged
(the updated row differs from the loaded one only in the two fields
written), not reset to zero. -/
theorem c6_amended_counts_and_history
    (fid : Nat) (s : DBState) (f : ConfirmationFileRec) (pc : J) (tpc cpc : String)
    (ids : List Nat) (s1 : DBState)
    (hu : s.files.filter (fun g => g.file_id == fid) = [f])
    (hfind : findFile s (lockParsed fid) = some f)
    (hv : validateParsedContent f = .ok pc)
    (htp : getTradingPartyCode s.party_codes pc = .ok tpc)
    (hcp : getCounterPartyCode s.party_codes pc = .ok cpc)
    (hcreate : createMatchingUnits s f pc tpc cpc = .ok (ids, s1)) :
    extractMatchingUnits fid s = (.ok ids, updateFileStatus s1 f ids) ∧
    (updateFileStatus s1 f ids).files.filter (fun g => g.file_id == fid) =
      [{ f with total_matching_units := ids.length,
                processing_status := some ProcessingStatus.UNITS_CREATED }] ∧
    ({ f with total_matching_units := ids.length,
              processing_status := some ProcessingStatus.UNITS_CREATED
     } : ConfirmationFileRec).matched_units_count = f.matched_units_count ∧
    (updateFileStatus s1 f ids).file_status_history =
      s1.file_status_history ++
        [{ file_id := f.file_id, previous_status := some ProcessingStatus.TEXT_PARSED,
           new_status := ProcessingStatus.UNITS_CREATED,
           trigger_source := "extract_matching_units_api",
           additional_data := muAdditionalData ids }] := by
  have hmem : f ∈ s.files.filter (fun g => g.file_id == fid) := by
    rw [hu]; exact List.mem_singleton_self f
  have hfid : f.file_id = fid := by simpa using List.of_mem_filter hmem
  have hpres := createMatchingUnits_preserves hcreate
  refine ⟨extractMU_run hfind hv htp hcp hcreate, ?_, rfl, ?_⟩
  · have hu1 : s1.files.filter (fun g => g.file_id == fid) = [f] := by
      rw [hpres.1]; exact hu
    simp only [updateFileStatus, addHistory, updateFile]
    exact filter_singleton_map_update (fun g => g.file_id == fid)
      (fun g => if g.file_id ==
          ({ f with total_matching_units := ids.length,
                    processing_status := some ProcessingStatus.UNITS_CREATED
           } : ConfirmationFileRec).file_id then
          { f with total_matching_units := ids.length,
                   processing_status := some ProcessingStatus.UNITS_CREATED }
        else g)
      f
      ({ f with total_matching_units := ids.length,
                processing_status := some ProcessingStatus.UNITS_CREATED
       } : ConfirmationFileRec)
      (fun a ha => by
        have : a.file_id = fid := by simpa using ha
        simp [this, hfid])
      (fun a ha => by
        have : a.file_id ≠ fid := by simpa using ha
        simp [hfid, this])
      (by simp [hfid]) s1.files hu1
  · simp [updateFileStatus, addHistory, updateFile]

theorem getTradingPartyCode_ok_obj {rows : List PartyCodeRec} {pc : J} {tpc : String}
    (h : getTradingPartyCode rows pc = .ok tpc) : ∃ fs, pc = .obj fs := by
  unfold getTradingPartyCode at h
  cases hg : dictGet pc "MsgSender" (.obj []) with
  | error e => simp [hg] at h
  | ok _ => exact dictGet_ok_obj hg

/-- C5 counterexample: a TEXT_PARSED document whose normalized parsed
content contains no `transactions` sequence and whose trading party is
unresolvable fails with the trading-party resolution error, not with
EmptyTransactionSet — the code resolves parties before checking the
transactions sequence, contradicting the claimed step order. -/
theorem c5_counterexample_party_error_wins :
    (extractMatchingUnits 2 c5State).1 =
      .error (.tradingPartyNotFound (.s "Nobody") .null .null) ∧
    (extractMatchingUnits 2 c5State).1 ≠ .error .noTransactionsFound := by decide

/-- C5 (amended): in the derivation pipeline party resolution precedes the
transactions check.  A party-resolution failure aborts the derivation with
that error (and a rollback) even when the transactions sequence is also
missing; the EmptyTransactionSet failure arises afterwards, when both
parties resolve and the normalized content has no truthy `transactions`
sequence. -/
theorem c5_amended_party_resolution_precedes_transactions_check :
    (∀ (fid : Nat) (s : DBState) (f : ConfirmationFileRec) (pc : J) (e : Err),
       findFile s (lockParsed fid) = some f →
       validateParsedContent f = .ok pc →
       getTradingPartyCode s.party_codes pc = .error e →
       extractMatchingUnits fid s = (.error e, s)) ∧
    (∀ (fid : Nat) (s : DBState) (f : ConfirmationFileRec) (pc : J) (tpc : String) (e : Err),
       findFile s (lockParsed fid) = some f →
       validateParsedContent f = .ok pc →
       getTradingPartyCode s.party_codes pc = .ok tpc →
       getCounterPartyCode s.party_codes pc = .error e →
       extractMatchingUnits fid s = (.error e, s)) ∧
    (∀ (fid : Nat) (s : DBState) (f : ConfirmationFileRec) (pc : J) (tpc cpc : String),
       findFile s (lockParsed fid) = some f →
       validateParsedContent f = .ok pc →
       getTradingPartyCode s.party_codes pc = .ok tpc →
       getCounterPartyCode s.party_codes pc = .ok cpc →
       truthy (attr pc "SettlementRate") = false →
       truthy (attr pc "transactions") = false →
       extractMatchingUnits fid s = (.error .noTransactionsFound, s)) := by
  refine ⟨?_, ?_, ?_⟩
  · intro fid s f pc e hfind hv htp
    simp only [extractMatchingUnits, extractMatchingUnitsSteps, hfind, hv, htp]
  · intro fid s f pc tpc e hfind hv htp hcp
    simp only [extractMatchingUnits, extractMatchingUnitsSteps, hfind, hv, htp, hcp]
  · intro fid s f pc tpc cpc hfind hv htp hcp hsr htx
    obtain ⟨fs, rfl⟩ := getTradingPartyCode_ok_obj htp
    simp only [attr] at hsr htx
    have hc : createMatchingUnits s f (.obj fs) tpc cpc = .error .noTransactionsFound := by
      unfold createMatchingUnits
      simp only [dictGetOpt, dictGet, hsr, if_false, Bool.false_eq_true]
      cases hl : lookupField fs "transactions" with
      | none => simp [hl, truthy]
      | some v =>
        rw [hl] at htx
        simp only [Option.getD] at htx ⊢
        simp [hl, htx]
    simp only [extractMatchingUnits, extractMatchingUnitsSteps, hfind, hv, htp, hcp, hc]

/-- Witness for C5: the amended statement applied to three concrete stores —
an unresolvable trading party aborts a no-transactions document with the
trading-party error; a resolvable trading party with an unresolvable
counterparty aborts the same payload shape with the counterparty error; with
both parties resolving, it fails with the empty-transaction-set error. -/
theorem c5_amended_party_resolution_precedes_transactions_check_witness :
    extractMatchingUnits 2 c5State =
      (.error (.tradingPartyNotFound (.s "Nobody") .null .null), c5State) ∧
    extractMatchingUnits 11 c5cState =
      (.error (.counterPartyNotFound (.s "NobodyElse") .null .null), c5cState) ∧
    extractMatchingUnits 5 c5bState = (.error .noTransactionsFound, c5bState) :=
  ⟨c5_amended_party_resolution_precedes_transactions_check.1 2 c5State c5File
      c5ParsedContent (.tradingPartyNotFound (.s "Nobody") .null .null)
      (by decide) (by decide) (by decide),
   c5_amended_party_resolution_precedes_transactions_check.2.1 11 c5cState c5cFile
      c5cParsedContent "BANKA" (.counterPartyNotFound (.s "NobodyElse") .null .null)
      (by decide) (by decide) (by decide) (by decide),
   c5_amended_party_resolution_precedes_transactions_check.2.2 5 c5bState c5bFile
      c5bParsedContent "BANKA" "CORPB"
      (by decide) (by decide) (by decide) (by decide) (by decide) (by decide)⟩

/-- Witness for C6: the amended statement applied to the concrete spec
scenario (one unit created, `matched_units_count` stays 5). -/
theorem c6_amended_counts_and_history_witness :
    extractMatchingUnits 1 c3State = (.ok [0], updateFileStatus c6S1 c3File [0]) ∧
    (updateFileStatus c6S1 c3File [0]).files.filter (fun g => g.file_id == 1) =
      [{ c3File with total_matching_units := 1,
                     processing_status := some ProcessingStatus.UNITS_CREATED }] ∧
    ({ c3File with total_matching_units := 1,
                   processing_status := some ProcessingStatus.UNITS_CREATED
     } : ConfirmationFileRec).matched_units_count = c3File.matched_units_count ∧
    (updateFileStatus c6S1 c3File [0]).file_status_history =
      c6S1.file_status_history ++
        [{ file_id := c3File.file_id, previous_status := some ProcessingStatus.TEXT_PARSED,
           new_status := ProcessingStatus.UNITS_CREATED,
           trigger_source := "extract_matching_units_api",
           additional_data := muAdditionalData [0] }] :=
  c6_amended_counts_and_history 1 c3State c3File c3ParsedContent "BANKA" "CORPB" [0] c6S1
    (by decide) (by decide) (by decide) (by decide) (by decide) (by decide)

/-- C7 counterexample: the spec-scenario derivation (file_id 1) succeeds,
but the new StatusHistoryEntry's `additional_data` holds only the created
unit count and ids: reading it back reproduces neither the trigger source
(recorded only in the separate `trigger_source` column) nor the request
parameter `file_id = 1` — the audit payload does not round-trip the request
for the unit-derivation transition. -/
theorem c7_counterexample_derivation_payload_no_request :
    (extractMatchingUnits 1 c3State).1 = .ok [0] ∧
    (extractMatchingUnits 1 c3State).2.file_status_history.map
        (fun h => (h.trigger_source, h.additional_data)) =
      [("extract_matching_units_api", muAdditionalData [0])] ∧
    containsStr (muAdditionalData [0]) (toString (1 : Nat)) = false ∧
    containsStr (muAdditionalData [0]) "extract_matching_units_api" = false := by decide

/-- C7 (amended): every successful transition records its trigger source in
the StatusHistoryEntry's `trigger_source` field.  The extraction and parsing
transitions additionally reproduce their request parameters verbatim inside
`additional_data` (under `request_params` and `request` respectively); the
derivation transition's `additional_data` instead records the created-unit
count and ids, not the request parameters. -/
theorem c7_amended_audit_payload_round_trip :
    (∀ (fid : Nat) (s : DBState) (f : ConfirmationFileRec) (res data sv meta tc : J),
       findFile s (lockNotProcessed fid) = some f →
       subscript res "data" = .ok data →
       subscript data "success" = .ok sv →
       truthy sv = true →
       dictGet data "metadata" (.obj []) = .ok meta →
       subscript data "text_content" = .ok tc →
       ∃ entry,
         (extractText fid LocationType.LOCAL (.ok res) s).2.file_status_history =
           s.file_status_history ++ [entry] ∧
         entry.trigger_source = "extract_text_service" ∧
         attr entry.additional_data "request_params" =
           .obj [("file_id", .s (toString fid)),
                 ("location", .s LocationType.LOCAL.value)]) ∧
    (∀ (fid : Nat) (s : DBState) (f : ConfirmationFileRec) (mid now : String)
       (fs : List (String × J)),
       findFile s (lockExtracted fid) = some f →
       ∃ entry,
         (parseText fid mid (.ok (.obj fs)) now s).2.file_status_history =
           s.file_status_history ++ [entry] ∧
         entry.trigger_source = "parse_text_service" ∧
         attr entry.additional_data "request" =
           .obj [("file_id", .s (toString fid)), ("model_id", .s mid)]) ∧
    (∀ (fid : Nat) (s : DBState) (f : ConfirmationFileRec) (pc : J) (tpc cpc : String)
       (ids : List Nat) (s1 : DBState),
       findFile s (lockParsed fid) = some f →
       validateParsedContent f = .ok pc →
       getTradingPartyCode s.party_codes pc = .ok tpc →
       getCounterPartyCode s.party_codes pc = .ok cpc →
       createMatchingUnits s f pc tpc cpc = .ok (ids, s1) →
       ∃ entry,
         (extractMatchingUnits fid s).2.file_status_history =
           s.file_status_history ++ [entry] ∧
         entry.trigger_source = "extract_matching_units_api" ∧
         entry.additional_data = muAdditionalData ids) := by
  refine ⟨?_, ?_, ?_⟩
  · intro fid s f res data sv meta tc hfind hdata hsucc htr hmeta htc
    refine ⟨extractHistoryEntry f fid LocationType.LOCAL meta, ?_, rfl, rfl⟩
    rw [extractText_run hfind hdata hsucc htr hmeta htc]
    simp [updateFile, addHistory]
  · intro fid s f mid now fs hfind
    refine ⟨parseHistoryEntry f fid mid now (.obj fs)
        ((lookupField fs "model_info").getD (.obj [])), ?_, rfl, rfl⟩
    rw [parseText_run s fid f mid now fs hfind]
    simp [updateFile, addHistory]
  · intro fid s f pc tpc cpc ids s1 hfind hv htp hcp hcreate
    refine ⟨{ file_id := f.file_id, previous_status := some ProcessingStatus.TEXT_PARSED,
              new_status := ProcessingStatus.UNITS_CREATED,
              trigger_source := "extract_matching_units_api",
              additional_data := muAdditionalData ids }, ?_, rfl, rfl⟩
    rw [extractMU_run hfind hv htp hcp hcreate]
    have hpres := createMatchingUnits_preserves hcreate
    simp [updateFileStatus, addHistory, updateFile, hpres.2.1]

/-- Witness for C7: the three amended statements at concrete stores — a
fresh document extracted, a TEXT_EXTRACTED document parsed, and the spec
scenario derived. -/
theorem c7_amended_audit_payload_round_trip_witness :
    (∃ entry,
       (extractText 6 LocationType.LOCAL (.ok demoExtractorResult) c8State).2.file_status_history =
         c8State.file_status_history ++ [entry] ∧
       entry.trigger_source = "extract_text_service" ∧
       attr entry.additional_data "request_params" =
         .obj [("file_id", .s (toString (6 : Nat))),
               ("location", .s LocationType.LOCAL.value)]) ∧
    (∃ entry,
       (parseText 4 "m1" (.ok (.obj [])) "t1" c2State).2.file_status_history =
         c2State.file_status_history ++ [entry] ∧
       entry.trigger_source = "parse_text_service" ∧
       attr entry.additional_data "request" =
         .obj [("file_id", .s (toString (4 : Nat))), ("model_id", .s "m1")]) ∧
    (∃ entry,
       (extractMatchingUnits 1 c3State).2.file_status_history =
         c3State.file_status_history ++ [entry] ∧
       entry.trigger_source = "extract_matching_units_api" ∧
       entry.additional_data = muAdditionalData [0]) :=
  ⟨c7_amended_audit_payload_round_trip.1 6 c8State c8File demoExtractorResult
      (.obj [("success", .b true), ("text_content", .s "TXT"),
             ("metadata", .obj [("pages", .i 2)])])
      (.b true) (.obj [("pages", .i 2)]) (.s "TXT")
      (by decide) (by decide) (by decide) (by decide) (by decide) (by decide),
   c7_amended_audit_payload_round_trip.2.1 4 c2State c2File "m1" "t1" []
      (by decide),
   c7_amended_audit_payload_round_trip.2.2 1 c3State c3File c3ParsedContent
      "BANKA" "CORPB" [0] c6S1
      (by decide) (by decide) (by decide) (by decide) (by decide)⟩

/-- C8: the first transition (beginExtraction) succeeds both for a document
whose processing_status is the explicit Not_Processed value and for one
whose processing_status is null/unset (given a successful extractor run);
every other source state is rejected as an invalid state, with no writes. -/
theorem c8_first_transition_null_or_not_processed :
    (∀ (fid : Nat) (s : DBState) (f : ConfirmationFileRec) (res data sv meta tc : J),
       s.files.filter (fun g => g.file_id == fid) = [f] →
       (f.processing_status = none ∨
         f.processing_status = some ProcessingStatus.Not_Processed) →
       subscript res "data" = .ok data →
       subscript data "success" = .ok sv →
       truthy sv = true →
       dictGet data "metadata" (.obj []) = .ok meta →
       subscript data "text_content" = .ok tc →
       (extractText fid LocationType.LOCAL (.ok res) s).1 = .ok res) ∧
    (∀ (fid : Nat) (s : DBState) (f : ConfirmationFileRec) (st : ProcessingStatus)
       (loc : LocationType) (er : Except Err J),
       s.files.filter (fun g => g.file_id == fid) = [f] →
       f.processing_status = some st →
       st ≠ ProcessingStatus.Not_Processed →
       extractText fid loc er s = (.error (.fileInvalidStatus (some st)), s)) := by
  constructor
  · intro fid s f res data sv meta tc hu hd hdata hsucc htr hmeta htc
    have hfind : findFile s (lockNotProcessed fid) = some f := by
      have h1 := find_and_of_filter_singleton (fun g => g.file_id == fid)
          (fun g => g.processing_status == none ||
            g.processing_status == some ProcessingStatus.Not_Processed) f s.files hu
      cases hd with
      | inl h => simpa [findFile, lockNotProcessed, h] using h1
      | inr h => simpa [findFile, lockNotProcessed, h] using h1
    rw [extractText_run hfind hdata hsucc htr hmeta htc]
  · intro fid s f st loc er hu hst hne
    have hP : (f.processing_status == (none : Option ProcessingStatus) ||
        f.processing_status == some ProcessingStatus.Not_Processed) = false := by
      rw [hst]; simp [hne]
    have hfind : findFile s (lockNotProcessed fid) = none := by
      have h1 := find_and_of_filter_singleton (fun g => g.file_id == fid)
          (fun g => g.processing_status == none ||
            g.processing_status == some ProcessingStatus.Not_Processed) f s.files hu
      simpa [findFile, lockNotProcessed, hP] using h1
    have hdiag : findFile s (fileIdIs fid) = some f := by
      have h2 := find_self_of_filter_singleton (fun g => g.file_id == fid) f s.files hu
      simpa [findFile, fileIdIs] using h2
    have hsteps : extractTextSteps fid loc er s = .error (.fileInvalidStatus (some st)) := by
      simp only [extractTextSteps, hfind, hdiag, hst]
    exact extractText_steps_error hsteps

/-- Witness for C8: a NULL-status document and a Not_Processed document are
both extracted successfully; a TEXT_PARSED document is rejected with the
invalid-status error and the store is unchanged. -/
theorem c8_first_transition_null_or_not_processed_witness :
    (extractText 6 LocationType.LOCAL (.ok demoExtractorResult) c8State).1 =
      .ok demoExtractorResult ∧
    (extractText 7 LocationType.LOCAL (.ok demoExtractorResult) c8StateNP).1 =
      .ok demoExtractorResult ∧
    extractText 1 LocationType.LOCAL (.ok demoExtractorResult) c3State =
      (.error (.fileInvalidStatus (some ProcessingStatus.TEXT_PARSED)), c3State) :=
  ⟨c8_first_transition_null_or_not_processed.1 6 c8State c8File demoExtractorResult
      (.obj [("success", .b true), ("text_content", .s "TXT"),
             ("metadata", .obj [("pages", .i 2)])])
      (.b true) (.obj [("pages", .i 2)]) (.s "TXT")
      (by decide) (Or.inl (by decide)) (by decide) (by decide) (by decide)
      (by decide) (by decide),
   c8_first_transition_null_or_not_processed.1 7 c8StateNP c8FileNP demoExtractorResult
      (.obj [("success", .b true), ("text_content", .s "TXT"),
             ("metadata", .obj [("pages", .i 2)])])
      (.b true) (.obj [("pages", .i 2)]) (.s "TXT")
      (by decide) (Or.inr (by decide)) (by decide) (by decide) (by decide)
      (by decide) (by decide),
   c8_first_transition_null_or_not_processed.2 1 c3State c3File
      ProcessingStatus.TEXT_PARSED LocationType.LOCAL (.ok demoExtractorResult)
      (by decide) (by decide) (by decide)⟩

theorem buildUnit_skip {fId : Nat} {tt tr : J} {sr : Option J} {tpc cpc : String}
    {n : Nat} {k : J} {g : List J}
    (h : g.find? (isSide "Sell") = none ∨ g.find? (isSide "Buy") = none) :
    buildUnit fId tt tr sr tpc cpc n k g = .ok none := by
  rcases h with h | h
  · simp [buildUnit, h]
  · cases hs : g.find? (isSide "Sell") with
    | none => simp [buildUnit, h, hs]
    | some p => simp [buildUnit, h, hs]

/-- C4: for every settlement-date group in the transaction list, the pay leg
is the first transaction in the group with side Sell and the receive leg the
first with side Buy; a group lacking either side produces no MatchingUnit
and does not cause the derivation to fail — dropping such a group from the
group list leaves the whole loop's outcome (including success and every
staged row) unchanged, so the remaining groups are still processed. -/
theorem c4_leg_pairing_and_skip :
    (∀ (fId : Nat) (tt tr : J) (sr : Option J) (tpc cpc : String) (k : J) (g : List J)
       (pre post : List (J × List J)) (s : DBState) (ids : List Nat),
       (g.find? (isSide "Sell") = none ∨ g.find? (isSide "Buy") = none) →
       processGroups fId tt tr sr tpc cpc (pre ++ (k, g) :: post) s ids =
         processGroups fId tt tr sr tpc cpc (pre ++ post) s ids) ∧
    (∀ (fId : Nat) (tt tr : J) (sr : Option J) (tpc cpc : String) (n : Nat) (k : J)
       (g : List J) (p r : J) (mu : MatchingUnitRec),
       g.find? (isSide "Sell") = some p →
       g.find? (isSide "Buy") = some r →
       buildUnit fId tt tr sr tpc cpc n k g = .ok (some mu) →
       mu.transaction_details =
         legDetails (attr p "Amount") (attr p "Currency")
           (attr r "Amount") (attr r "Currency") ∧
       strptimeDate (attr p "TradeDate") = .ok mu.trade_date ∧
       strptimeDate k = .ok mu.settlement_date) := by
  constructor
  · intro fId tt tr sr tpc cpc k g pre post s ids h
    induction pre generalizing s ids with
    | nil => simp only [List.nil_append, processGroups, buildUnit_skip h]
    | cons a pre ih =>
      cases a with
      | mk k1 g1 =>
        simp only [List.cons_append, processGroups]
        cases hb : buildUnit fId tt tr sr tpc cpc s.matching_units.length k1 g1 with
        | error e => rfl
        | ok mu? =>
          cases mu? with
          | none => exact ih s ids
          | some mu => exact ih _ _
  · intro fId tt tr sr tpc cpc n k g p r mu hp hr hbuild
    unfold buildUnit at hbuild
    rw [hp, hr] at hbuild
    cases h1 : subscript p "TradeDate" with
    | error e => simp [h1] at hbuild
    | ok tdRaw =>
    simp only [h1] at hbuild
    cases h2 : strptimeDate tdRaw with
    | error e => simp [h2] at hbuild
    | ok tradeDate =>
    simp only [h2] at hbuild
    cases h3 : strptimeDate k with
    | error e => simp [h3] at hbuild
    | ok settlementDate =>
    simp only [h3] at hbuild
    cases h4 : subscript p "Amount" with
    | error e => simp [h4] at hbuild
    | ok payAmount =>
    simp only [h4] at hbuild
    cases h5 : subscript p "Currency" with
    | error e => simp [h5] at hbuild
    | ok payCurrency =>
    simp only [h5] at hbuild
    cases h6 : subscript r "Amount" with
    | error e => simp [h6] at hbuild
    | ok recvAmount =>
    simp only [h6] at hbuild
    cases h7 : subscript r "Currency" with
    | error e => simp [h7] at hbuild
    | ok recvCurrency =>
    simp only [h7, Except.ok.injEq, Option.some.injEq] at hbuild
    subst hbuild
    refine ⟨?_, ?_, ?_⟩
    · rw [subscript_ok_attr h4, subscript_ok_attr h5, subscript_ok_attr h6,
        subscript_ok_attr h7]
    · rw [subscript_ok_attr h1]; simpa using h2
    · simpa using h3

/-- Witness for C4: a Buy-only group is skipped without error (the loop
outcome equals the loop without it), and on the spec-scenario group the
derived unit's legs come from the first Sell and the first Buy. -/
theorem c4_leg_pairing_and_skip_witness :
    processGroups 9 .null .null none "A" "B" [(.s "2025-03-01", [buyTx])]
        ⟨[], [], [], []⟩ [] =
      processGroups 9 .null .null none "A" "B" [] ⟨[], [], [], []⟩ [] ∧
    (c3Unit.transaction_details =
       legDetails (attr sellTx "Amount") (attr sellTx "Currency")
         (attr buyTx "Amount") (attr buyTx "Currency") ∧
     strptimeDate (attr sellTx "TradeDate") = .ok c3Unit.trade_date ∧
     strptimeDate (.s "2025-03-01") = .ok c3Unit.settlement_date) :=
  ⟨c4_leg_pairing_and_skip.1 9 .null .null none "A" "B" (.s "2025-03-01") [buyTx]
      [] [] ⟨[], [], [], []⟩ [] (Or.inl (by decide)),
   c4_leg_pairing_and_skip.2 1 (.s "FX") (.s "TR1") none "BANKA" "CORPB" 0
      (.s "2025-03-01") [sellTx, buyTx] sellTx buyTx c3Unit
      (by decide) (by decide) (by decide)⟩

/-- C9 counterexample: a transaction with no `SettlementDate` key lands in
no settlement-date group, yet the derivation still succeeds — the
transaction is silently dropped by the grouping loop, an undocumented
silent skip beyond the missing-leg-pair policy. -/
theorem c9_counterexample_orphan_transaction_dropped :
    (extractMatchingUnits 3 c9State).1 = .ok [0] ∧
    orphanTx ∈ ([orphanTx, sellTx, buyTx] : List J) ∧
    groupTransactions [orphanTx, sellTx, buyTx] [] =
      .ok [(.s "2025-03-01", [sellTx, buyTx])] ∧
    orphanTx ∉ ([sellTx, buyTx] : List J) := by decide

theorem mem_addToGroup (t x : J) :
    ∀ (acc : List (J × List J)) (k : J),
      (∃ p ∈ addToGroup acc k x, t ∈ p.2) ↔ (∃ p ∈ acc, t ∈ p.2) ∨ t = x := by
  intro acc
  induction acc with
  | nil => intro k; simp [addToGroup]
  | cons a acc ih =>
    intro k
    cases a with
    | mk k1 ts =>
      simp only [addToGroup]
      by_cases hk : (k1 == k) = true
      · rw [if_pos hk]
        simp only [List.mem_cons]
        constructor
        · rintro ⟨p, hp | hp, hmem⟩
          · subst hp
            rcases List.mem_append.mp hmem with hmem | hmem
            · exact Or.inl ⟨(k1, ts), Or.inl rfl, hmem⟩
            · exact Or.inr (List.mem_singleton.mp hmem)
          · exact Or.inl ⟨p, Or.inr hp, hmem⟩
        · rintro (⟨p, hp | hp, hmem⟩ | hx)
          · subst hp; exact ⟨(k1, ts ++ [x]), Or.inl rfl, by simp [hmem]⟩
          · exact ⟨p, Or.inr hp, hmem⟩
          · exact ⟨(k1, ts ++ [x]), Or.inl rfl, by simp [hx]⟩
      · rw [if_neg hk]
        simp only [List.mem_cons]
        constructor
        · rintro ⟨p, hp | hp, hmem⟩
          · subst hp; exact Or.inl ⟨(k1, ts), Or.inl rfl, hmem⟩
          · rcases (ih k).mp ⟨p, hp, hmem⟩ with ⟨p1, hp1, hmem1⟩ | rfl
            · exact Or.inl ⟨p1, Or.inr hp1, hmem1⟩
            · exact Or.inr rfl
        · rintro (⟨p, hp | hp, hmem⟩ | rfl)
          · subst hp; exact ⟨(k1, ts), Or.inl rfl, hmem⟩
          · rcases (ih k).mpr (Or.inl ⟨p, hp, hmem⟩) with ⟨p1, hp1, hmem1⟩
            exact ⟨p1, Or.inr hp1, hmem1⟩
          · rcases (ih k).mpr (Or.inr rfl) with ⟨p1, hp1, hmem1⟩
            exact ⟨p1, Or.inr hp1, hmem1⟩

theorem groupTransactions_mem :
    ∀ (ts : List J) (acc gs : List (J × List J)),
      groupTransactions ts acc = .ok gs →
      ∀ t : J, ((∃ p ∈ gs, t ∈ p.2) ↔
        (∃ p ∈ acc, t ∈ p.2) ∨ (t ∈ ts ∧ truthy (attr t "SettlementDate") = true)) := by
  intro ts
  induction ts with
  | nil =>
    intro acc gs h t
    simp only [groupTransactions, Except.ok.injEq] at h
    subst h; simp
  | cons t' ts ih =>
    intro acc gs h t
    simp only [groupTransactions] at h
    cases hsd : dictGetOpt t' "SettlementDate" with
    | error e => simp [hsd] at h
    | ok sd =>
      simp only [hsd] at h
      have hat : attr t' "SettlementDate" = sd := dictGetOpt_ok_attr hsd
      by_cases htr : truthy sd = true
      · rw [if_pos htr] at h
        rw [ih (addToGroup acc sd t') gs h t, mem_addToGroup t t' acc sd]
        constructor
        · rintro ((hm | rfl) | ⟨hts, htt⟩)
          · exact Or.inl hm
          · exact Or.inr ⟨List.mem_cons_self t ts, by rw [hat]; exact htr⟩
          · exact Or.inr ⟨List.mem_cons_of_mem _ hts, htt⟩
        · rintro (hm | ⟨hts, htt⟩)
          · exact Or.inl (Or.inl hm)
          · rcases List.mem_cons.mp hts with rfl | hts'
            · exact Or.inl (Or.inr rfl)
            · exact Or.inr ⟨hts', htt⟩
      · rw [if_neg htr] at h
        rw [ih acc gs h t]
        constructor
        · rintro (hm | ⟨hts, htt⟩)
          · exact Or.inl hm
          · exact Or.inr ⟨List.mem_cons_of_mem _ hts, htt⟩
        · rintro (hm | ⟨hts, htt⟩)
          · exact Or.inl hm
          · rcases List.mem_cons.mp hts with rfl | hts'
            · rw [hat] at htt; exact absurd htt htr
            · exact Or.inr ⟨hts', htt⟩

theorem dictGetOpt_non_obj {v : J} {k : String} (h : ∀ fs, v ≠ .obj fs) :
    dictGetOpt v k = .error .attrError := by
  cases v with
  | obj fs => exact absurd rfl (h fs)
  | null => rfl
  | b x => rfl
  | i n => rfl
  | s x => rfl
  | arr xs => rfl

theorem dictGetOpt_error_attr {v : J} {k : String} {e : Err}
    (h : dictGetOpt v k = .error e) : e = .attrError := by
  cases v with
  | obj fs => simp [dictGetOpt, dictGet] at h
  | null => simpa [dictGetOpt, dictGet] using h.symm
  | b x => simpa [dictGetOpt, dictGet] using h.symm
  | i n => simpa [dictGetOpt, dictGet] using h.symm
  | s x => simpa [dictGetOpt, dictGet] using h.symm
  | arr xs => simpa [dictGetOpt, dictGet] using h.symm

theorem groupTransactions_raises_on_non_obj :
    ∀ (ts : List J) (acc : List (J × List J)) (t : J), t ∈ ts → (∀ fs, t ≠ .obj fs) →
      groupTransactions ts acc = .error .attrError := by
  intro ts
  induction ts with
  | nil => intro acc t ht; exact absurd ht (List.not_mem_nil t)
  | cons t' ts ih =>
    intro acc t ht hobj
    rcases List.mem_cons.mp ht with rfl | ht'
    · simp only [groupTransactions, dictGetOpt_non_obj hobj]
    · cases hsd : dictGetOpt t' "SettlementDate" with
      | error e =>
        rw [dictGetOpt_error_attr hsd] at hsd
        simp only [groupTransactions, hsd]
      | ok sd =>
        simp only [groupTransactions, hsd]
        exact ih _ t ht' hobj

/-- C9 (amended): the grouping loop accounts for exactly the transactions
with a truthy `SettlementDate`: when grouping succeeds, a transaction from
the input list lands in some settlement-date group if and only if its
`SettlementDate` is present and truthy — one with a missing or falsy
`SettlementDate` is silently dropped (an undocumented silent skip in
addition to the §4.4 missing-leg-pair policy).  A transaction that is not a
dict still causes a reported failure: grouping raises the attribute error,
and the whole derivation aborts with it, leaving the store unchanged. -/
theorem c9_amended_grouping_accounts_for_dates :
    (∀ (ts : List J) (gs : List (J × List J)),
       groupTransactions ts [] = .ok gs →
       ∀ t ∈ ts, ((∃ p ∈ gs, t ∈ p.2) ↔ truthy (attr t "SettlementDate") = true)) ∧
    (∀ (ts : List J) (acc : List (J × List J)) (t : J),
       t ∈ ts → (∀ fs, t ≠ .obj fs) →
       groupTransactions ts acc = .error .attrError) ∧
    (∀ (fid : Nat) (s : DBState) (f : ConfirmationFileRec) (pc : J) (tpc cpc : String)
       (txs : List J) (t : J),
       findFile s (lockParsed fid) = some f →
       validateParsedContent f = .ok pc →
       getTradingPartyCode s.party_codes pc = .ok tpc →
       getCounterPartyCode s.party_codes pc = .ok cpc →
       truthy (attr pc "SettlementRate") = false →
       attr pc "transactions" = .arr txs →
       t ∈ txs → (∀ fs, t ≠ .obj fs) →
       extractMatchingUnits fid s = (.error .attrError, s)) := by
  refine ⟨?_, groupTransactions_raises_on_non_obj, ?_⟩
  · intro ts gs h t ht
    have h1 := groupTransactions_mem ts [] gs h t
    simpa [ht] using h1
  · intro fid s f pc tpc cpc txs t hfind hv htp hcp hsr htx htmem htobj
    obtain ⟨fs, rfl⟩ := getTradingPartyCode_ok_obj htp
    simp only [attr] at hsr htx
    have hgroup : groupTransactions txs [] = .error .attrError :=
      groupTransactions_raises_on_non_obj txs [] t htmem htobj
    have hne : txs ≠ [] := List.ne_nil_of_mem htmem
    have hc : createMatchingUnits s f (.obj fs) tpc cpc = .error .attrError := by
      unfold createMatchingUnits
      simp only [dictGetOpt, dictGet, hsr, if_false, Bool.false_eq_true]
      cases hl : lookupField fs "transactions" with
      | none => rw [hl] at htx; simp at htx
      | some v =>
        rw [hl] at htx
        simp only [Option.getD] at htx
        subst htx
        simp [hl, truthy, hne, asTransactionList, hgroup]
    exact extractMU_steps_error
      (by simp only [extractMatchingUnitsSteps, hfind, hv, htp, hcp, hc])

/-- Witness for C9: the amended statement at concrete inputs — the orphan
transaction's grouped-iff-truthy-date equivalence, a grouping run raising on
a non-dict transaction, and a whole derivation aborting on one with the
store unchanged. -/
theorem c9_amended_grouping_accounts_for_dates_witness :
    ((∃ p ∈ ([(.s "2025-03-01", [sellTx, buyTx])] : List (J × List J)), orphanTx ∈ p.2) ↔
       truthy (attr orphanTx "SettlementDate") = true) ∧
    groupTransactions [.s "oops"] [] = .error .attrError ∧
    extractMatchingUnits 10 c9bState = (.error .attrError, c9bState) :=
  ⟨c9_amended_grouping_accounts_for_dates.1 [orphanTx, sellTx, buyTx]
      [(.s "2025-03-01", [sellTx, buyTx])] (by decide) orphanTx (by decide),
   c9_amended_grouping_accounts_for_dates.2.1 [.s "oops"] [] (.s "oops")
      (by decide) (fun fs h => J.noConfusion h),
   c9_amended_grouping_accounts_for_dates.2.2 10 c9bState c9bFile c9bParsedContent
      "BANKA" "CORPB" [.s "oops", sellTx, buyTx] (.s "oops")
      (by decide) (by decide) (by decide) (by decide) (by decide) (by decide)
      (by decide) (fun fs h => J.noConfusion h)⟩

theorem partyMatches_truthy {mn ma pn : J} {x : PartyCodeRec}
    (h : partyMatches mn ma pn x = true) :
    (truthy mn || truthy ma || truthy pn) = true := by
  simp only [partyMatches, Bool.or_eq_true, Bool.and_eq_true] at h ⊢
  rcases h with (⟨h1, _⟩ | ⟨h1, _⟩) | ⟨h1, _⟩
  · exact Or.inl (Or.inl h1)
  · exact Or.inl (Or.inr h1)
  · exact Or.inr h1

theorem findPartyCode_multi {rows : List PartyCodeRec} {mn ma pn : J}
    {p q : PartyCodeRec} {rest : List PartyCodeRec}
    (hf : rows.filter (partyMatches mn ma pn) = p :: q :: rest) :
    findPartyCode rows mn ma pn = .error .multipleResultsFound := by
  have hp : partyMatches mn ma pn p = true := by
    have hmem : p ∈ rows.filter (partyMatches mn ma pn) := by rw [hf]; simp
    exact List.of_mem_filter hmem
  have htr := partyMatches_truthy hp
  unfold findPartyCode
  rw [if_pos htr, hf]

/-- C10: for every party lookup during derivation, if more than one
PartyCode row matches the disjunction of the provided identity fields, the
lookup raises (the single-row read rejects multiple results) and the whole
derivation aborts with rollback — the resolver never silently returns one of
several matches, and it does not filter matches by is_active (flipping every
row's is_active flag never changes the lookup's outcome). -/
theorem c10_ambiguous_party_lookup_raises :
    (∀ (rows : List PartyCodeRec) (mn ma pn : J) (p q : PartyCodeRec)
       (rest : List PartyCodeRec),
       rows.filter (partyMatches mn ma pn) = p :: q :: rest →
       findPartyCode rows mn ma pn = .error .multipleResultsFound) ∧
    (∀ (rows : List PartyCodeRec) (b : Bool) (mn ma pn : J),
       findPartyCode (rows.map (fun r => { r with is_active := b })) mn ma pn =
         findPartyCode rows mn ma pn) ∧
    (∀ (fid : Nat) (s : DBState) (f : ConfirmationFileRec) (pc ms n a tp : J)
       (p q : PartyCodeRec) (rest : List PartyCodeRec),
       findFile s (lockParsed fid) = some f →
       validateParsedContent f = .ok pc →
       dictGet pc "MsgSender" (.obj []) = .ok ms →
       dictGetOpt ms "Name" = .ok n →
       dictGetOpt ms "Address" = .ok a →
       dictGetOpt pc "TradingParty" = .ok tp →
       s.party_codes.filter (partyMatches n a tp) = p :: q :: rest →
       extractMatchingUnits fid s = (.error .multipleResultsFound, s)) := by
  refine ⟨fun rows mn ma pn p q rest hf => findPartyCode_multi hf, ?_, ?_⟩
  · intro rows b mn ma pn
    have hfil : (rows.map (fun r => { r with is_active := b })).filter
        (partyMatches mn ma pn) =
        (rows.filter (partyMatches mn ma pn)).map (fun r => { r with is_active := b }) := by
      rw [List.filter_map]
      rfl
    unfold findPartyCode
    rw [hfil]
    cases hfl : rows.filter (partyMatches mn ma pn) with
    | nil => simp
    | cons p rest =>
      cases rest with
      | nil => simp
      | cons q rest2 => simp
  · intro fid s f pc ms n a tp p q rest hfind hv hms hn ha htp hfil
    have htpc : getTradingPartyCode s.party_codes pc = .error .multipleResultsFound := by
      unfold getTradingPartyCode
      simp only [hms, hn, ha, htp, findPartyCode_multi hfil]
    exact extractMU_steps_error
      (by simp only [extractMatchingUnitsSteps, hfind, hv, htpc])

/-- Witness for C10: the duplicate rows make the lookup raise; deactivating
every reference row changes no lookup outcome; and the ambiguous document's
derivation aborts leaving the store untouched. -/
theorem c10_ambiguous_party_lookup_raises_witness :
    findPartyCode dupRows .null .null (.s "Dup Corp") = .error .multipleResultsFound ∧
    findPartyCode (demoPartyRows.map (fun r => { r with is_active := false }))
        (.s "Alpha Bank") .null .null =
      findPartyCode demoPartyRows (.s "Alpha Bank") .null .null ∧
    extractMatchingUnits 8 c10State = (.error .multipleResultsFound, c10State) :=
  ⟨c10_ambiguous_party_lookup_raises.1 dupRows .null .null (.s "Dup Corp")
      { party_code := "D1", msger_name := none, msger_address := none,
        party_name := "Dup Corp", party_role := "corporate", is_active := true }
      { party_code := "D2", msger_name := none, msger_address := none,
        party_name := "Dup Corp", party_role := "bank", is_active := false }
      [] (by decide),
   c10_ambiguous_party_lookup_raises.2.1 demoPartyRows false
      (.s "Alpha Bank") .null .null,
   c10_ambiguous_party_lookup_raises.2.2 8 c10State c10File c10ParsedContent
      (.obj []) .null .null (.s "Dup Corp")
      { party_code := "D1", msger_name := none, msger_address := none,
        party_name := "Dup Corp", party_role := "corporate", is_active := true }
      { party_code := "D2", msger_name := none, msger_address := none,
        party_name := "Dup Corp", party_role := "bank", is_active := false }
      [] (by decide) (by decide) (by decide) (by decide) (by decide) (by decide)
      (by decide)⟩

